import Mathlib

/-!
Verification development for the `mystical_python` bridge subsystem
(`api_client.py` and `integration_bridge.py`).

The embedding models Python values with the inductive `PyVal` (JSON data
plus `datetime` objects), Python dictionary/iteration/membership
primitives as `Except`-valued functions that mirror the exceptions CPython
raises (`TypeError`, `KeyError`, `AttributeError`, `ValueError`), and time
as a stream of clock readings `Nat → Nat` (seconds); each call to
`datetime.now()` / `time.time()` consumes the next reading.  Remote calls
made by `MysticalAPIClient` are modeled as oracles supplied in an
environment, and every operation returns the list of observable effects
(remote calls issued, event handlers invoked, state-file writes) alongside
its result and the updated bridge state.
-/

namespace Mystical

/-- Python runtime values that occur in the bridge: JSON values plus
`datetime` objects (modeled as seconds, a natural number). -/
inductive PyVal where
  | none
  | bool (b : Bool)
  | int (n : Int)
  | str (s : String)
  | datetime (t : Nat)
  | list (xs : List PyVal)
  | dict (kvs : List (String × PyVal))
deriving Repr

/-- Python exception kinds raised by the primitives used in the bridge. -/
inductive PyErr where
  | typeErr
  | keyErr (k : String)
  | valueErr
  | attrErr
deriving Repr, DecidableEq

/-- Decimal digits of a natural number, least-significant first
(fuel-based so that it reduces definitionally). -/
def natDigitsAux : Nat → Nat → List Nat
  | 0, _ => []
  | fuel + 1, n => if n = 0 then [] else n % 10 :: natDigitsAux fuel (n / 10)

/-- Decimal digits of `n`, least-significant first. -/
def natDigits (n : Nat) : List Nat := natDigitsAux n n

/-- Recombine little-endian decimal digits into a natural number. -/
def ofDigs : List Nat → Nat
  | [] => 0
  | d :: ds => d + 10 * ofDigs ds

/-- The character for a decimal digit. -/
def digitChar (d : Nat) : Char := Char.ofNat (48 + d)

/-- The decimal digit of a character. -/
def charDigit (c : Char) : Nat := c.toNat - 48

/-- Model of `datetime.isoformat()`: the serialization of a timestamp at
full precision, rendered as its decimal string. -/
def isoformat (t : Nat) : String :=
  if t = 0 then "0" else String.mk (((natDigits t).map digitChar).reverse)

/-- Model of `datetime.fromisoformat` on a string: parses the decimal
serialization back to a timestamp, `Option.none` on malformed input. -/
def parseIso (s : String) : Option Nat :=
  if s.data ≠ [] ∧ s.data.all (fun c => decide (48 ≤ c.toNat ∧ c.toNat ≤ 57)) then
    some (ofDigs (s.data.reverse.map charDigit))
  else
    Option.none

/-- Lookup in a Python dict (association list with unique keys,
insertion order preserved). -/
def kvLookup (kvs : List (String × PyVal)) (k : String) : Option PyVal :=
  (kvs.find? (fun p => p.1 == k)).map (fun p => p.2)

/-- Assignment `d[k] = v` on a Python dict: replaces the value in place
when the key exists, appends otherwise (insertion order preserved). -/
def kvSet (kvs : List (String × PyVal)) (k : String) (v : PyVal) :
    List (String × PyVal) :=
  if kvs.any (fun p => p.1 == k) then
    kvs.map (fun p => if p.1 == k then (k, v) else p)
  else
    kvs ++ [(k, v)]

/-- Whether a lowercased-name membership test `needle in container` holds;
raises `TypeError` on non-container values, exactly as CPython does
(substring test on strings, element test on lists, key test on dicts). -/
def pyIn (needle : String) (v : PyVal) : Except PyErr Bool :=
  match v with
  | .dict kvs => .ok (kvs.any (fun p => p.1 == needle))
  | .list xs =>
      .ok (xs.any (fun x => match x with | .str s => s == needle | _ => false))
  | .str s => .ok (strHasSub s needle.data)
  | _ => .error .typeErr
where
  /-- Substring test: does `sub` occur contiguously in `s`? -/
  strHasSub (s : String) (sub : List Char) : Bool := go s.data sub
  /-- Scan the haystack for the pattern at each position. -/
  go : List Char → List Char → Bool
    | hay, sub =>
      if sub.isPrefixOf hay then true
      else match hay with
        | [] => false
        | _ :: rest => go rest sub

/-- Subscript `v[k]` with a string key: dict lookup (`KeyError` when
missing), `TypeError` on every other value. -/
def pyGetItemS (v : PyVal) (k : String) : Except PyErr PyVal :=
  match v with
  | .dict kvs =>
      match kvLookup kvs k with
      | some x => .ok x
      | Option.none => .error (.keyErr k)
  | _ => .error .typeErr

/-- Method call `v.get(k, default)`: only dicts have `.get`
(`AttributeError` otherwise). -/
def pyGet (v : PyVal) (k : String) (dflt : PyVal) : Except PyErr PyVal :=
  match v with
  | .dict kvs => .ok ((kvLookup kvs k).getD dflt)
  | _ => .error .attrErr

/-- Iteration `for x in v`: lists yield elements, dicts yield their keys,
strings yield one-character strings; other values raise `TypeError`. -/
def pyIterList (v : PyVal) : Except PyErr (List PyVal) :=
  match v with
  | .list xs => .ok xs
  | .dict kvs => .ok (kvs.map (fun p => .str p.1))
  | .str s => .ok (s.data.map (fun c => .str (String.mk [c])))
  | _ => .error .typeErr

/-- Method call `v.keys()`: only dicts have it (`AttributeError` otherwise). -/
def pyKeys (v : PyVal) : Except PyErr (List PyVal) :=
  match v with
  | .dict kvs => .ok (kvs.map (fun p => .str p.1))
  | _ => .error .attrErr

/-- Assignment `v[k] = x`: `TypeError` unless `v` is a dict. -/
def dictAssign (v : PyVal) (k : String) (x : PyVal) : Except PyErr PyVal :=
  match v with
  | .dict kvs => .ok (.dict (kvSet kvs k x))
  | _ => .error .typeErr

/-- Python truthiness of a value. -/
def pyTruthy (v : PyVal) : Bool :=
  match v with
  | .none => false
  | .bool b => b
  | .int n => n != 0
  | .str s => !s.isEmpty
  | .list xs => !xs.isEmpty
  | .dict kvs => !kvs.isEmpty
  | .datetime _ => true

/-- The statement `v += 1`: arithmetic on ints (and bools, which are ints
in Python); `TypeError` on anything else. -/
def pyIncr (v : PyVal) : Except PyErr PyVal :=
  match v with
  | .int n => .ok (.int (n + 1))
  | .bool b => .ok (.int (if b then 2 else 1))
  | _ => .error .typeErr

/-- Rendering of a value inside an f-string (`str(v)`); composite values
are abstracted since no bridge behavior depends on their exact text. -/
def pyStrOf (v : PyVal) : String :=
  match v with
  | .str s => s
  | .int n => toString n
  | .bool b => if b then "True" else "False"
  | .none => "None"
  | .datetime t => "datetime " ++ isoformat t
  | .list _ => "[list]"
  | .dict _ => "[dict]"

mutual
/-- Model of `json.dump(·, default=str)` on a value: JSON constructors
pass through; a `datetime` (the only non-JSON value in the bridge) is
rendered through `str`, as the `default=str` hook does. -/
def jsonize : PyVal → PyVal
  | .none => .none
  | .bool b => .bool b
  | .int n => .int n
  | .str s => .str s
  | .datetime t => .str ("datetime " ++ isoformat t)
  | .list xs => .list (jsonizeList xs)
  | .dict kvs => .dict (jsonizeDict kvs)
/-- The map of `jsonize` over a list. -/
def jsonizeList : List PyVal → List PyVal
  | [] => []
  | x :: xs => jsonize x :: jsonizeList xs
/-- The map of `jsonize` over dict entries. -/
def jsonizeDict : List (String × PyVal) → List (String × PyVal)
  | [] => []
  | (k, v) :: kvs => (k, jsonize v) :: jsonizeDict kvs
end

/-- Model of `datetime.fromisoformat(v)`: `TypeError` on non-strings, `ValueError`
on unparseable strings. -/
def fromisoformat (v : PyVal) : Except PyErr Nat :=
  match v with
  | .str s =>
      match parseIso s with
      | some t => .ok t
      | Option.none => .error .valueErr
  | _ => .error .typeErr

/-!
Embedding of `MysticalAPIClient._make_request` (`api_client.py`, lines
60-97).  The network is an oracle `outcomes : Nat → Outcome` giving, for
each attempt number, either a transport-level failure (the
`requests.exceptions.RequestException` branch) or a delivered HTTP
response with its status code and JSON body (`Option.none` body models a
response whose `.json()` call raises).
-/

/-- The outcome the network produces for one attempt of `_make_request`. -/
inductive Outcome where
  | transport (msg : String)
  | response (status : Nat) (body : Option PyVal)
deriving Repr

/-- The configuration fields of `PythonConfig` that `_make_request` reads. -/
structure ApiCfg where
  max_retries : Nat
  mystical_theme : Bool
deriving Repr

/-- The `MysticalAPIError` message built for an HTTP status `≥ 400`
(lines 72-85): the base text embeds the status code, and any truthy
`message` field of a JSON error body is appended after a dash; a body
that is not JSON, or has no `.get` method, is swallowed by the bare
`except` and contributes nothing. -/
def statusErrMsg (cfg : ApiCfg) (status : Nat) (body : Option PyVal) : String :=
  let base :=
    if cfg.mystical_theme then
      "🌙 The cosmic energies have disrupted the connection (Status: "
        ++ toString status ++ ")"
    else
      "API request failed with status " ++ toString status
  match body with
  | some (.dict kvs) =>
      let detail := (kvLookup kvs "message").getD (.str "")
      if pyTruthy detail then base ++ " - " ++ pyStrOf detail else base
  | _ => base

/-- The `MysticalAPIError` message for exhausted transport retries
(lines 90-94). -/
def transportErrMsg (cfg : ApiCfg) (msg : String) : String :=
  if cfg.mystical_theme then
    "⚡ The ethereal channels are blocked: " ++ msg
  else
    "Request failed: " ++ msg

/-- What one `_make_request` call did: its result (a response with status
`< 400`, or the raised `MysticalAPIError` message), the total seconds
slept in backoff, and how many attempts were issued. -/
structure ReqResult where
  result : Except String (Nat × Option PyVal)
  slept : Nat
  attempts : Nat
deriving Repr

/-- The retry loop of `_make_request` (lines 68-97), fuel-indexed: a
response with status `≥ 400` raises at once; a response with status
`< 400` is returned; a transport failure raises when the attempt number
equals `max_retries` and otherwise sleeps `2 ^ attempt` seconds and
retries. -/
def makeRequestGo (cfg : ApiCfg) (outcomes : Nat → Outcome) :
    Nat → Nat → Nat → ReqResult
  | 0, attempt, slept =>
      { result := .error "out of fuel", slept := slept, attempts := attempt }
  | fuel + 1, attempt, slept =>
      match outcomes attempt with
      | .response st body =>
          if 400 ≤ st then
            { result := .error (statusErrMsg cfg st body), slept := slept,
              attempts := attempt + 1 }
          else
            { result := .ok (st, body), slept := slept, attempts := attempt + 1 }
      | .transport m =>
          if attempt = cfg.max_retries then
            { result := .error (transportErrMsg cfg m), slept := slept,
              attempts := attempt + 1 }
          else
            makeRequestGo cfg outcomes fuel (attempt + 1) (slept + 2 ^ attempt)

/-- Model of `_make_request`: the loop `for attempt in range(max_retries + 1)`
started at attempt 0 (the fuel `max_retries + 1` covers every iteration
the Python loop can perform). -/
def makeRequest (cfg : ApiCfg) (outcomes : Nat → Outcome) : ReqResult :=
  makeRequestGo cfg outcomes (cfg.max_retries + 1) 0 0

/-!
Embedding of `MysticalBridge` (`integration_bridge.py`).  Fields of the
`SyncState` dataclass are `PyVal` because `_load_shared_state` assigns
whatever the JSON file holds without shape checks.
-/

/-- The `SyncState` dataclass (lines 70-81). -/
structure SyncStateV where
  last_sync : PyVal
  react_version : PyVal
  python_version : PyVal
  pending_changes : PyVal
  conflict_resolution : PyVal
deriving Repr

/-- The `BridgeMessage` dataclass (lines 56-67); `message_id` is derived
in `__post_init__` from the source and a millisecond clock reading. -/
structure BridgeMessage where
  type : String
  timestamp : Nat
  source : String
  payload : PyVal
  message_id : String
deriving Repr

/-- A registered event handler: a callable identified by `hid`
that either returns or raises when invoked (`throws`). -/
structure Handler where
  hid : Nat
  throws : Bool
deriving Repr, DecidableEq

/-- Observable side effects of a bridge operation: remote API calls
issued through the client, handler invocations performed by
`emit_event` (`ok` records whether the handler returned normally), and
writes of the shared-state file. -/
inductive Eff where
  | remoteCall (op : String) (args : List PyVal)
  | handlerRun (hid : Nat) (etype : String) (ok : Bool)
  | fileWrite (doc : PyVal)
deriving Repr

/-- The `BridgeConfig` fields serialized by `_save_shared_state`. -/
structure BridgeCfg where
  auto_sync : Bool
  bidirectional : Bool
deriving Repr

/-- A bookmark attached to an entry (the `Bookmark` model fields read by
the bridge). -/
structure BookmarkR where
  isBookmarked : Bool
  personalNotes : PyVal
  createdAt : Nat
  updatedAt : Nat
deriving Repr

/-- A codex entry inside a collection (the `CodexEntryWithBookmark`
fields read by `export_collection_for_python`). -/
structure Entry where
  id : String
  filename : String
  category : String
  subcategory : PyVal
  size : Int
  processedDate : Nat
  summary : String
  fullText : String
  keyChunks : List String
  keyTerms : List String
  bookmark : Option BookmarkR
deriving Repr

/-- A collection with its member entries (the `CollectionWithEntries`
fields read by the bridge). -/
structure Collection where
  id : String
  title : String
  notes : PyVal
  entries : List Entry
deriving Repr

/-- The remote store, as the oracle the bridge calls through
`MysticalAPIClient`: each operation either returns or raises a
`MysticalAPIError` carrying a message.  `create_annotation` returns the
`id` of the created annotation. -/
structure Client where
  get_collections : Except String (List Collection)
  create_annotation : PyVal → PyVal → PyVal → Except String String
  create_bookmark : PyVal → PyVal → PyVal → Except String Unit
  create_collection : PyVal → PyVal → PyVal → PyVal → Except String Unit

/-- The environment of a bridge operation: the remote client and the
clock stream (`clock i` is the value delivered by the `i`-th
`datetime.now()` / `time.time()` call). -/
structure Env where
  client : Client
  clock : Nat → Nat

/-- The mutable state of a `MysticalBridge` instance: the sync state, the
local cache (`local_cache`, normally a dict), the message queue, the
registered event handlers, the index of the next clock reading, and the
current content of the shared-state file (`Option.none` before the first
save). -/
structure Bridge where
  config : BridgeCfg
  sync_state : SyncStateV
  local_cache : PyVal
  message_queue : List BridgeMessage
  event_handlers : List (String × List Handler)
  clock_idx : Nat
  state_file : Option PyVal
deriving Repr

/-- A freshly constructed bridge before `_load_shared_state` runs
(`__init__`, lines 87-108): `SyncState(last_sync=datetime.now())` with
dataclass defaults, an empty cache, queue and handler table.  `t0` is the
construction-time clock reading (index 0), so the next reading has
index 1. -/
def defaultBridge (cfg : BridgeCfg) (t0 : Nat) : Bridge where
  config := cfg
  sync_state :=
    { last_sync := .datetime t0
      react_version := .int 0
      python_version := .int 0
      pending_changes := .list []
      conflict_resolution := .str "manual" }
  local_cache := .dict []
  message_queue := []
  event_handlers := []
  clock_idx := 1
  state_file := Option.none

/-- The `BridgeMessage` built by `emit_event` at timestamp `t` with the
millisecond reading `ms` feeding `__post_init__`. -/
def mkMessage (etype : String) (t : Nat) (payload : PyVal) (ms : Nat) :
    BridgeMessage where
  type := etype
  timestamp := t
  source := "python"
  payload := payload
  message_id := "python_" ++ isoformat ms

/-- The handlers registered for an event type, in registration order
(`self.event_handlers.get(event_type, [])` shape). -/
def handlersFor (b : Bridge) (etype : String) : List Handler :=
  ((b.event_handlers.find? (fun p => p.1 == etype)).map (fun p => p.2)).getD []

/-- Model of `register_event_` (lines 161-165): creates the handler list
for the type when absent, then appends the handler. -/
def register_event_handler (b : Bridge) (etype : String) (h : Handler) :
    Bridge :=
  if b.event_handlers.any (fun p => p.1 == etype) then
    { b with
        event_handlers := b.event_handlers.map
          (fun p => if p.1 == etype then (p.1, p.2 ++ [h]) else p) }
  else
    { b with event_handlers := b.event_handlers ++ [(etype, [h])] }

/-- Model of `emit_event` (lines 167-185): builds the message (two clock reads:
`datetime.now()` for the timestamp and `time.time()` for the id), puts it
on the message queue, then invokes every registered handler for the type
in registration order; a handler exception is caught and logged (the
`ok := !h.throws` flag of the recorded invocation). -/
def emit_event (env : Env) (b : Bridge) (etype : String) (payload : PyVal) :
    Bridge × List Eff :=
  let msg := mkMessage etype (env.clock b.clock_idx) payload
      (env.clock (b.clock_idx + 1))
  let b1 := { b with
      clock_idx := b.clock_idx + 2
      message_queue := b.message_queue ++ [msg] }
  (b1, (handlersFor b etype).map (fun h => .handlerRun h.hid etype (!h.throws)))

/-- The JSON document `_save_shared_state` writes (lines 136-151), given
the `last_sync` timestamp `lsT` and the `datetime.now()` reading `nowT`
used for `metadata.last_updated`; the other fields pass through
`json.dump(..., default=str)`. -/
def saveDocCore (b : Bridge) (lsT nowT : Nat) : PyVal :=
  .dict
    [("sync_state", .dict
        [("last_sync", .str (isoformat lsT)),
         ("react_version", jsonize b.sync_state.react_version),
         ("python_version", jsonize b.sync_state.python_version),
         ("pending_changes", jsonize b.sync_state.pending_changes),
         ("conflict_resolution", jsonize b.sync_state.conflict_resolution)]),
     ("local_cache", jsonize b.local_cache),
     ("metadata", .dict
        [("bridge_version", .str "1.0"),
         ("last_updated", .str (isoformat nowT)),
         ("auto_sync", .bool b.config.auto_sync),
         ("bidirectional", .bool b.config.bidirectional)])]

/-- Model of `_save_shared_state` (lines 133-159): serializes the state and writes
the file; `last_sync.isoformat()` on a non-datetime raises
`AttributeError`, which the method's own `except` catches and logs, so
save never raises and on that path writes nothing. -/
def save_shared_state (env : Env) (b : Bridge) : Bridge × List Eff :=
  match b.sync_state.last_sync with
  | .datetime lsT =>
      let nowT := env.clock b.clock_idx
      let doc := saveDocCore b lsT nowT
      ({ b with clock_idx := b.clock_idx + 1, state_file := some doc },
       [.fileWrite doc])
  | _ => (b, [])

/-- The body of `_load_shared_state`'s `try` block on a parsed JSON
document (lines 118-126), with Python mutation order made explicit: an
exception (`Sum.inr`) carries the bridge as already mutated when it was
raised. -/
def loadBody (doc : PyVal) (b : Bridge) : Bridge ⊕ (PyErr × Bridge) :=
  match pyIn "sync_state" doc with
  | .error e => .inr (e, b)
  | .ok cond =>
    let afterSync : Bridge ⊕ (PyErr × Bridge) :=
      if cond then
        match pyGetItemS doc "sync_state" with
        | .error e => .inr (e, b)
        | .ok sync_data =>
          match pyGetItemS sync_data "last_sync" with
          | .error e => .inr (e, b)
          | .ok lsv =>
            match fromisoformat lsv with
            | .error e => .inr (e, b)
            | .ok t =>
              let b1 := { b with
                  sync_state := { b.sync_state with last_sync := .datetime t } }
              match pyGet sync_data "react_version" (.int 0) with
              | .error e => .inr (e, b1)
              | .ok rv =>
                let b2 := { b1 with
                    sync_state := { b1.sync_state with react_version := rv } }
                match pyGet sync_data "python_version" (.int 0) with
                | .error e => .inr (e, b2)
                | .ok pv =>
                  let b3 := { b2 with
                      sync_state := { b2.sync_state with python_version := pv } }
                  match pyGet sync_data "pending_changes" (.list []) with
                  | .error e => .inr (e, b3)
                  | .ok pc =>
                    .inl { b3 with
                        sync_state :=
                          { b3.sync_state with pending_changes := pc } }
      else
        .inl b
    match afterSync with
    | .inr eb => .inr eb
    | .inl b' =>
      match pyGet doc "local_cache" (.dict []) with
      | .error e => .inr (e, b')
      | .ok lc => .inl { b' with local_cache := lc }

/-- Model of `_load_shared_state` (lines 110-131) on the file content: the outer
`Option` is whether the file exists, the inner one whether `json.load`
succeeded.  A missing file skips the load; any exception (parse failure
or a `loadBody` error) is caught and logged, keeping whatever state the
body had produced by then.  The method never raises. -/
def load_shared_state (file : Option (Option PyVal)) (b : Bridge) : Bridge :=
  match file with
  | Option.none => b
  | some Option.none => b
  | some (some doc) =>
    match loadBody doc b with
    | .inl b' => b'
    | .inr (_, b') => b'

/-!
`export_collection_for_python` (lines 188-280).
-/

/-- Errors an export can terminate with: a `MysticalAPIError` propagated
unchanged from the client, the `ValueError` for an unknown collection, or
a `TypeError` from the cache assignment. -/
inductive BridgeErr where
  | api (msg : String)
  | valueError (msg : String)
  | typeError
deriving Repr, DecidableEq

/-- Number of whitespace-separated words (`str.split()` with no
argument, empty pieces dropped). -/
def countWords (s : String) : Nat :=
  ((s.split Char.isWhitespace).filter (fun w => !w.isEmpty)).length

/-- The `Bookmark` pydantic model rendered by `.dict()`. -/
def BookmarkR.toPy (bm : BookmarkR) : PyVal :=
  .dict
    [("isBookmarked", .bool bm.isBookmarked),
     ("personalNotes", bm.personalNotes),
     ("createdAt", .datetime bm.createdAt),
     ("updatedAt", .datetime bm.updatedAt)]

/-- An entry rendered by `entry.dict()`. -/
def Entry.toPy (e : Entry) : PyVal :=
  .dict
    [("id", .str e.id),
     ("filename", .str e.filename),
     ("size", .int e.size),
     ("processedDate", .datetime e.processedDate),
     ("summary", .str e.summary),
     ("keyChunks", .list (e.keyChunks.map .str)),
     ("fullText", .str e.fullText),
     ("category", .str e.category),
     ("subcategory", e.subcategory),
     ("keyTerms", .list (e.keyTerms.map .str)),
     ("bookmark", match e.bookmark with
        | some bm => bm.toPy
        | Option.none => .none)]

/-- The per-entry dict placed in `export_data['entries']` (lines
227-240): `entry.dict()` with the derived `python_metadata` added. -/
def entryDictOf (e : Entry) : PyVal :=
  .dict (kvSet
    (match e.toPy with | .dict kvs => kvs | _ => [])
    "python_metadata"
    (.dict
      [("word_count", .int (countWords e.fullText)),
       ("char_count", .int e.fullText.length),
       ("summary_length", .int e.summary.length),
       ("has_bookmark", .bool e.bookmark.isSome),
       ("bookmark_notes", match e.bookmark with
          | some bm => bm.personalNotes
          | Option.none => .none)]))

/-- One `categories[entry.category] = categories.get(entry.category, 0) + 1`
step on the category histogram (line 244). -/
def histInc (h : List (String × Nat)) (c : String) : List (String × Nat) :=
  if h.any (fun p => p.1 == c) then
    h.map (fun p => if p.1 == c then (p.1, p.2 + 1) else p)
  else
    h ++ [(c, 1)]

/-- Model of `all_key_terms.update(entry.keyTerms)` — the Python `set`
modeled as a duplicate-free list in insertion order (a deterministic stand-in
for the set's unspecified iteration order; no claim depends on the
order). -/
def setAddAll (acc : List String) (ts : List String) : List String :=
  ts.foldl (fun a t => if a.contains t then a else a ++ [t]) acc

/-- The running state of the entry loop of
`export_collection_for_python` (lines 222-249). -/
structure ExpAcc where
  entriesPy : List PyVal
  total : Int
  cats : List (String × Nat)
  terms : List String
  dates : List Nat
deriving Repr

/-- The loop state before any entry is processed. -/
def emptyExpAcc : ExpAcc where
  entriesPy := []
  total := 0
  cats := []
  terms := []
  dates := []

/-- One iteration of the entry loop (lines 227-249). -/
def expStep (acc : ExpAcc) (e : Entry) : ExpAcc where
  entriesPy := acc.entriesPy ++ [entryDictOf e]
  total := acc.total + e.size
  cats := histInc acc.cats e.category
  terms := if e.keyTerms.isEmpty then acc.terms else setAddAll acc.terms e.keyTerms
  dates := acc.dates ++ [e.processedDate]

/-- The `min` of a nonempty list of timestamps (guarded by `if dates:`). -/
def listMinD (xs : List Nat) : Nat :=
  match xs with
  | [] => 0
  | x :: rest => rest.foldl Nat.min x

/-- The `max` of a nonempty list of timestamps. -/
def listMaxD (xs : List Nat) : Nat :=
  match xs with
  | [] => 0
  | x :: rest => rest.foldl Nat.max x

/-- The finalized `export_data` dict (lines 204-260): collection info
with the first `datetime.now()` reading `now1`, the per-entry dicts, and
the aggregated metadata. -/
def buildExportData (c : Collection) (acc : ExpAcc) (now1 : Nat) : PyVal :=
  .dict
    [("collection_info", .dict
        [("id", .str c.id),
         ("title", .str c.title),
         ("notes", c.notes),
         ("entry_count", .int c.entries.length),
         ("exported_at", .str (isoformat now1)),
         ("export_source", .str "mystical_bridge")]),
     ("entries", .list acc.entriesPy),
     ("metadata", .dict
        [("total_size", .int acc.total),
         ("categories", .dict (acc.cats.map (fun p => (p.1, .int p.2)))),
         ("key_terms", .list (acc.terms.map .str)),
         ("date_range",
           if acc.dates.isEmpty then
             .dict [("earliest", .none), ("latest", .none)]
           else
             .dict
               [("earliest", .str (isoformat (listMinD acc.dates))),
                ("latest", .str (isoformat (listMaxD acc.dates)))])])]

/-- Model of `export_collection_for_python` (lines 188-280): fetches the
collections, locates the target (raising `ValueError` when absent),
builds the export bundle (clock reading 1 for
`collection_info.exported_at`), writes one cache entry under
`collection_export_<id>` whose `exported_at` uses clock reading 2 and
whose `expires_at` is clock reading 3 plus one hour (two separate
`datetime.now()` calls on lines 266-267), then emits
`collection_exported`.  Any exception is logged and re-raised with no
cache write and no event. -/
def export_collection_for_python (env : Env) (b : Bridge) (cid : String) :
    Except BridgeErr PyVal × Bridge × List Eff :=
  match env.client.get_collections with
  | .error m => (.error (.api m), b, [.remoteCall "get_collections" []])
  | .ok cols =>
    match cols.find? (fun c => c.id == cid) with
    | Option.none =>
        (.error (.valueError ("Collection " ++ cid ++ " not found")), b,
         [.remoteCall "get_collections" []])
    | some c =>
      let now1 := env.clock b.clock_idx
      let acc := c.entries.foldl expStep emptyExpAcc
      let exportData := buildExportData c acc now1
      let now2 := env.clock (b.clock_idx + 1)
      let now3 := env.clock (b.clock_idx + 2)
      let key := "collection_export_" ++ cid
      let cval : PyVal := .dict
        [("data", exportData),
         ("exported_at", .str (isoformat now2)),
         ("expires_at", .str (isoformat (now3 + 3600)))]
      match dictAssign b.local_cache key cval with
      | .error _ =>
          (.error .typeError, { b with clock_idx := b.clock_idx + 3 },
           [.remoteCall "get_collections" []])
      | .ok newCache =>
        let b1 := { b with clock_idx := b.clock_idx + 3, local_cache := newCache }
        let (b2, hEffs) := emit_event env b1 "collection_exported"
            (.dict
              [("collection_id", .str cid),
               ("entry_count", .int acc.entriesPy.length),
               ("total_size", .int acc.total)])
        (.ok exportData, b2, .remoteCall "get_collections" [] :: hEffs)

/-!
`import_python_annotations` (lines 282-312).
-/

/-- The validation test
`all(key in annotation_data for key in ['entryId', 'content', 'authorName'])`
(line 289), with Python's short-circuit order; the membership test itself
raises `TypeError` on non-container items. -/
def validCheck (item : PyVal) : Except PyErr Bool := do
  let e1 ← pyIn "entryId" item
  if e1 then do
    let e2 ← pyIn "content" item
    if e2 then pyIn "authorName" item else pure false
  else
    pure false

/-- Whether an item is skipped by validation (logged and `continue`d). -/
def skippedB (item : PyVal) : Bool :=
  match validCheck item with
  | .ok false => true
  | _ => false

/-- The `for annotation_data in annotations_data` loop (lines 287-300).
Returns the collected annotation ids, the remote-call effects, and
whether the loop finished without an exception; the first exception
(membership `TypeError`, a subscript error, or a failing
`create_annotation` call) abandons the loop, so the ids and effects of
the triple are those accumulated up to that point. -/
def importLoop (cl : Client) : List PyVal → List String × List Eff × Bool
  | [] => ([], [], true)
  | item :: rest =>
    match validCheck item with
    | .error _ => ([], [], false)
    | .ok false => importLoop cl rest
    | .ok true =>
      match pyGetItemS item "entryId" with
      | .error _ => ([], [], false)
      | .ok eid =>
        match pyGetItemS item "content" with
        | .error _ => ([], [], false)
        | .ok cont =>
          match pyGet item "authorName" (.str "Python Bridge") with
          | .error _ => ([], [], false)
          | .ok auth =>
            match cl.create_annotation eid cont auth with
            | .error _ =>
                ([], [.remoteCall "create_annotation" [eid, cont, auth]], false)
            | .ok aid =>
              let r := importLoop cl rest
              (aid :: r.1, .remoteCall "create_annotation" [eid, cont, auth] :: r.2.1,
               r.2.2)

/-- Model of `import_python_annotations` (lines 282-312): iterates the batch
(`TypeError` for a non-iterable argument), skips items failing
validation, creates an annotation per valid item, and on completion
emits `annotations_imported`.  The `try/except` around the whole body
catches every exception, logs it, and returns the ids imported so far —
the method never raises. -/
def import_python_annotations (env : Env) (b : Bridge) (input : PyVal) :
    List String × Bridge × List Eff :=
  match pyIterList input with
  | .error _ => ([], b, [])
  | .ok items =>
    let r := importLoop env.client items
    if r.2.2 then
      let be := emit_event env b "annotations_imported"
          (.dict
            [("count", .int r.1.length),
             ("annotation_ids", .list (r.1.map .str))])
      (r.1, be.1, r.2.1 ++ be.2)
    else
      (r.1, b, r.2.1)

/-!
`sync_python_data_to_react` (lines 403-441).
-/

/-- The `for bookmark_data in python_data['bookmarks']` loop (lines
408-413): keyword arguments are evaluated left to right, then
`create_bookmark` is called; the first exception abandons the loop. -/
def bookmarksLoop (cl : Client) : List PyVal → List Eff × Bool
  | [] => ([], true)
  | bd :: rest =>
    match pyGetItemS bd "entryId" with
    | .error _ => ([], false)
    | .ok eid =>
      match pyGet bd "isBookmarked" (.bool true) with
      | .error _ => ([], false)
      | .ok isb =>
        match pyGet bd "personalNotes" .none with
        | .error _ => ([], false)
        | .ok pn =>
          match cl.create_bookmark eid isb pn with
          | .error _ => ([.remoteCall "create_bookmark" [eid, isb, pn]], false)
          | .ok _ =>
            let r := bookmarksLoop cl rest
            (.remoteCall "create_bookmark" [eid, isb, pn] :: r.1, r.2)

/-- The `for collection_data in python_data['collections']` loop (lines
418-425). -/
def collectionsLoop (cl : Client) : List PyVal → List Eff × Bool
  | [] => ([], true)
  | cd :: rest =>
    match pyGetItemS cd "title" with
    | .error _ => ([], false)
    | .ok t =>
      match pyGet cd "entryIds" (.list []) with
      | .error _ => ([], false)
      | .ok eids =>
        match pyGet cd "notes" .none with
        | .error _ => ([], false)
        | .ok notes =>
          match pyGet cd "isPublic" (.bool false) with
          | .error _ => ([], false)
          | .ok isPub =>
            match cl.create_collection t eids notes isPub with
            | .error _ =>
                ([.remoteCall "create_collection" [t, eids, notes, isPub]], false)
            | .ok _ =>
              let r := collectionsLoop cl rest
              (.remoteCall "create_collection" [t, eids, notes, isPub] :: r.1, r.2)

/-- One guarded phase `if <key> in python_data: for x in python_data[<key>]:
<loop>` of `sync_python_data_to_react`; the membership test, the
subscript and the iteration can each raise. -/
def syncPhase (data : PyVal) (key : String)
    (loop : List PyVal → List Eff × Bool) : List Eff × Bool :=
  match pyIn key data with
  | .error _ => ([], false)
  | .ok cond =>
    if cond then
      match pyGetItemS data key with
      | .error _ => ([], false)
      | .ok v =>
        match pyIterList v with
        | .error _ => ([], false)
        | .ok xs => loop xs
    else
      ([], true)

/-- The tail of `sync_python_data_to_react` from the `collections`
section on (lines 418-437): the collections loop, then
`python_version += 1`, `last_sync = datetime.now()`, the save, and the
`python_data_synced` event whose payload evaluates
`python_data.keys()`.  `b2` is the bridge after the annotations section
and `effsPre` the effects accumulated so far. -/
def syncFinish (env : Env) (b2 : Bridge) (data : PyVal) (effsPre : List Eff) :
    Bool × Bridge × List Eff :=
  let cl := syncPhase data "collections" (collectionsLoop env.client)
  if cl.2 then
    match pyIncr b2.sync_state.python_version with
    | .error _ => (false, b2, effsPre ++ cl.1)
    | .ok pv =>
      let b3 := { b2 with
          sync_state := { b2.sync_state with python_version := pv } }
      let t := env.clock b3.clock_idx
      let b4 := { b3 with
          sync_state := { b3.sync_state with last_sync := .datetime t }
          clock_idx := b3.clock_idx + 1 }
      let sv := save_shared_state env b4
      match pyKeys data with
      | .error _ => (false, sv.1, effsPre ++ cl.1 ++ sv.2)
      | .ok ks =>
        let be := emit_event env sv.1 "python_data_synced"
            (.dict [("data_types", .list ks), ("sync_version", pv)])
        (true, be.1, effsPre ++ cl.1 ++ sv.2 ++ be.2)
  else
    (false, b2, effsPre ++ cl.1)

/-- Model of `sync_python_data_to_react` (lines 403-441): processes the
`bookmarks`, `annotations` and `collections` sections in order (the
annotations section delegates to `import_python_annotations`, which never
raises — a failing `create_annotation` is absorbed there), then performs
the bookkeeping of `syncFinish`.  The surrounding `try/except` turns any
exception into a `False` return, keeping whatever state had already been
mutated; on full success it returns `True`. -/
def sync_python_data_to_react (env : Env) (b : Bridge) (data : PyVal) :
    Bool × Bridge × List Eff :=
  let bm := syncPhase data "bookmarks" (bookmarksLoop env.client)
  if bm.2 then
    match pyIn "annotations" data with
    | .error _ => (false, b, bm.1)
    | .ok condA =>
      if condA then
        match pyGetItemS data "annotations" with
        | .error _ => (false, b, bm.1)
        | .ok av =>
          let ir := import_python_annotations env b av
          syncFinish env ir.2.1 data (bm.1 ++ ir.2.2)
      else
        syncFinish env b data bm.1
  else
    (false, b, bm.1)

/-!
Statement helpers and concrete fixtures used by witnesses and
counterexamples.
-/

/-- Read a field of a dict value (for stating properties of built
documents). -/
def pyField (v : PyVal) (k : String) : Option PyVal :=
  match v with
  | .dict kvs => kvLookup kvs k
  | _ => Option.none

/-- The cache entry `export_collection_for_python` writes, given the
three `datetime.now()` readings it consumes. -/
def exportCacheValue (c : Collection) (now1 now2 now3 : Nat) : PyVal :=
  .dict
    [("data", buildExportData c (c.entries.foldl expStep emptyExpAcc) now1),
     ("exported_at", .str (isoformat now2)),
     ("expires_at", .str (isoformat (now3 + 3600)))]

/-- The sum of the counts of a category histogram. -/
def sumHist (h : List (String × Nat)) : Nat := (h.map (fun p => p.2)).sum

/-- Whether an effect is a remote call. -/
def isRemoteCall (f : Eff) : Bool :=
  match f with
  | .remoteCall _ _ => true
  | _ => false

/-- Whether an effect is a write of the shared-state file. -/
def isFileWrite (f : Eff) : Bool :=
  match f with
  | .fileWrite _ => true
  | _ => false

/-- Whether an effect is a handler invocation for the given event type. -/
def isHandlerRunFor (etype : String) (f : Eff) : Bool :=
  match f with
  | .handlerRun _ t _ => t == etype
  | _ => false

/-- A remote store in which every operation fails with a
`MysticalAPIError`. -/
def clFail : Client where
  get_collections := .error "connection refused"
  create_annotation := fun _ _ _ => .error "create_annotation failed"
  create_bookmark := fun _ _ _ => .error "create_bookmark failed"
  create_collection := fun _ _ _ _ => .error "create_collection failed"

/-- A concrete entry used in export witnesses. -/
def entryA : Entry where
  id := "e1"
  filename := "alpha.txt"
  category := "alchemy"
  subcategory := .none
  size := 10
  processedDate := 100
  summary := "s"
  fullText := "hello world"
  keyChunks := []
  keyTerms := ["gold"]
  bookmark := Option.none

/-- A second concrete entry with the same category. -/
def entryB : Entry where
  id := "e2"
  filename := "beta.txt"
  category := "alchemy"
  subcategory := .none
  size := 20
  processedDate := 50
  summary := "t"
  fullText := "lux"
  keyChunks := []
  keyTerms := []
  bookmark := Option.none

/-- A remote store in which every operation succeeds; it holds one
collection `c1` with two entries. -/
def clOk : Client where
  get_collections := .ok [⟨"c1", "Treatises", .none, [entryA, entryB]⟩]
  create_annotation := fun _ _ _ => .ok "ann1"
  create_bookmark := fun _ _ _ => .ok ()
  create_collection := fun _ _ _ _ => .ok ()

/-- Environment with the failing store and the identity clock (reading
`i` returns `i`, so consecutive `datetime.now()` calls differ). -/
def envFail : Env := ⟨clFail, fun i => i⟩

/-- Environment with the succeeding store and the identity clock. -/
def envOk : Env := ⟨clOk, fun i => i⟩

/-- A freshly constructed bridge (construction-time clock reading 0). -/
def b0 : Bridge := defaultBridge ⟨true, true⟩ 0

/-- A valid annotation record. -/
def item1 : PyVal :=
  .dict [("entryId", .str "e1"), ("content", .str "c"), ("authorName", .str "a")]

/-- A second valid annotation record. -/
def item2 : PyVal :=
  .dict [("entryId", .str "e2"), ("content", .str "d"), ("authorName", .str "a")]

/-- A bridge with distinctive values in every `SyncState` field and a
nonempty cache, used to witness the save/load round trip. -/
def bSave : Bridge where
  config := ⟨true, true⟩
  sync_state :=
    { last_sync := .datetime 5
      react_version := .int 3
      python_version := .int 4
      pending_changes := .list [.str "x"]
      conflict_resolution := .str "manual" }
  local_cache := .dict [("k", .int 7)]
  message_queue := []
  event_handlers := []
  clock_idx := 3
  state_file := Option.none

/-- Retry configuration with `max_retries = 2` (the C2 scenario). -/
def cfg2 : ApiCfg := ⟨2, true⟩

/-- A server that fails twice at the transport level and then succeeds
with status 200. -/
def outFTS : Nat → Outcome :=
  fun i => if i < 2 then .transport "refused" else .response 200 Option.none

/-- The transport-failure messages of `outFTS`. -/
def msF : Nat → String := fun _ => "refused"

/-- A bridge whose persisted-and-reloaded state is probed in the C5
counterexample: identical to `b0` except that `conflict_resolution` is
the non-default policy `react_wins`. -/
def bCr : Bridge :=
  { b0 with sync_state := { b0.sync_state with conflict_resolution := .str "react_wins" } }

/-!
Theorems.  First the serialization round-trip toolkit, then generic
lemmas about the embedded primitives, then the claim theorems.
-/

theorem ofDigs_natDigitsAux (fuel n : Nat) (h : n ≤ fuel) :
    ofDigs (natDigitsAux fuel n) = n := by
  induction fuel generalizing n with
  | zero => interval_cases n; rfl
  | succ fuel ih =>
    by_cases h0 : n = 0
    · subst h0; rfl
    · have hdiv : n / 10 ≤ fuel := by
        have : n / 10 < n := Nat.div_lt_self (Nat.pos_of_ne_zero h0) (by norm_num)
        omega
      simp only [natDigitsAux, if_neg h0, ofDigs, ih _ hdiv]
      omega

theorem ofDigs_natDigits (n : Nat) : ofDigs (natDigits n) = n :=
  ofDigs_natDigitsAux n n le_rfl

theorem natDigitsAux_lt_ten (fuel n : Nat) : ∀ d ∈ natDigitsAux fuel n, d < 10 := by
  induction fuel generalizing n with
  | zero => intro d hd; simp [natDigitsAux] at hd
  | succ fuel ih =>
    intro d hd
    by_cases h0 : n = 0
    · subst h0; simp [natDigitsAux] at hd
    · simp only [natDigitsAux, if_neg h0, List.mem_cons] at hd
      rcases hd with h | h
      · subst h; exact Nat.mod_lt _ (by norm_num)
      · exact ih _ _ h

theorem charDigit_digitChar (d : Nat) (h : d < 10) : charDigit (digitChar d) = d := by
  interval_cases d <;> rfl

theorem digitChar_isDigit (d : Nat) (h : d < 10) :
    48 ≤ (digitChar d).toNat ∧ (digitChar d).toNat ≤ 57 := by
  interval_cases d <;> exact ⟨by decide, by decide⟩

theorem natDigits_ne_nil (n : Nat) (h : n ≠ 0) : natDigits n ≠ [] := by
  cases n with
  | zero => exact absurd rfl h
  | succ m => simp [natDigits, natDigitsAux]

/-- Round-trip: parsing the serialized timestamp recovers it exactly. -/
theorem parseIso_isoformat (t : Nat) : parseIso (isoformat t) = some t := by
  by_cases h0 : t = 0
  · subst h0; decide
  · have hne : natDigits t ≠ [] := natDigits_ne_nil t h0
    have hlt : ∀ d ∈ natDigits t, d < 10 := natDigitsAux_lt_ten t t
    unfold isoformat parseIso
    rw [if_neg h0]
    have hdata : (String.mk (((natDigits t).map digitChar).reverse)).data
        = ((natDigits t).map digitChar).reverse := rfl
    rw [hdata]
    have hcond : ((natDigits t).map digitChar).reverse ≠ [] ∧
        (((natDigits t).map digitChar).reverse).all
          (fun c => decide (48 ≤ c.toNat ∧ c.toNat ≤ 57)) := by
      constructor
      · simp [hne]
      · rw [List.all_eq_true]
        intro c hc
        rw [List.mem_reverse, List.mem_map] at hc
        obtain ⟨d, hd, rfl⟩ := hc
        exact decide_eq_true (digitChar_isDigit d (hlt d hd))
    rw [if_pos hcond, List.reverse_reverse, List.map_map]
    have hmap : (natDigits t).map (charDigit ∘ digitChar) = natDigits t := by
      apply List.map_congr_left ?_ |>.trans (List.map_id _)
      intro d hd
      exact charDigit_digitChar d (hlt d hd)
    rw [hmap, ofDigs_natDigits]

theorem fromisoformat_isoformat (t : Nat) :
    fromisoformat (.str (isoformat t)) = .ok t := by
  simp [fromisoformat, parseIso_isoformat]

/-- Helper: the handler list registered for a type after
`register_event_handler`, at the level of the raw association list. -/
theorem handlersFor_register_aux (l : List (String × List Handler))
    (etype : String) (h : Handler) :
    (((if l.any (fun p => p.1 == etype) then
          l.map (fun p => if p.1 == etype then (p.1, p.2 ++ [h]) else p)
        else l ++ [(etype, [h])]).find? (fun p => p.1 == etype)).map
        (fun p => p.2)).getD []
      = ((l.find? (fun p => p.1 == etype)).map (fun p => p.2)).getD [] ++ [h] := by
  induction l with
  | nil => simp
  | cons p t ih =>
    rw [List.any_cons]
    by_cases hp : (p.1 == etype) = true
    · rw [hp, Bool.true_or, if_pos rfl, List.map_cons, if_pos hp]
      simp [List.find?_cons, hp]
    · have hp' : (p.1 == etype) = false := Bool.eq_false_iff.mpr hp
      rw [hp', Bool.false_or]
      by_cases ht : (t.any fun p => p.1 == etype) = true
      · rw [ht, if_pos rfl, List.map_cons, if_neg (by simp [hp'])]
        rw [if_pos ht] at ih
        simpa [List.find?_cons, hp'] using ih
      · have ht' : (t.any fun p => p.1 == etype) = false := Bool.eq_false_iff.mpr ht
        rw [ht', if_neg (by simp), List.cons_append]
        rw [if_neg (by simp [ht'])] at ih
        simpa [List.find?_cons, hp'] using ih

/-- C7: `emit_event` first appends the message to the message queue, then
invokes every handler registered for the type, in registration order,
regardless of which handlers raise (each invocation is recorded with its
outcome and none is skipped); the queue gains exactly the one message and
nothing else of the bridge changes.  `register_event_handler` appends to
the type's handler list, so invocation order is registration order. -/
theorem c7_event_delivery :
    (∀ (env : Env) (b : Bridge) (etype : String) (payload : PyVal),
      (emit_event env b etype payload).1.message_queue
        = b.message_queue
          ++ [mkMessage etype (env.clock b.clock_idx) payload
                (env.clock (b.clock_idx + 1))]
      ∧ (emit_event env b etype payload).2
        = (handlersFor b etype).map
            (fun h => Eff.handlerRun h.hid etype (!h.throws))
      ∧ (emit_event env b etype payload).1.sync_state = b.sync_state
      ∧ (emit_event env b etype payload).1.local_cache = b.local_cache
      ∧ (emit_event env b etype payload).1.event_handlers = b.event_handlers
      ∧ (emit_event env b etype payload).1.state_file = b.state_file)
    ∧ (∀ (b : Bridge) (etype : String) (h : Handler),
      handlersFor (register_event_handler b etype h) etype
        = handlersFor b etype ++ [h]) := by
  constructor
  · intro env b etype payload
    exact ⟨rfl, rfl, rfl, rfl, rfl, rfl⟩
  · intro b etype h
    unfold register_event_handler handlersFor
    by_cases hc : b.event_handlers.any (fun p => p.1 == etype)
    · rw [if_pos hc]
      have := handlersFor_register_aux b.event_handlers etype h
      rw [if_pos hc] at this
      exact this
    · rw [if_neg hc]
      have := handlersFor_register_aux b.event_handlers etype h
      rw [if_neg hc] at this
      exact this

/-- C9 counterexample: the claim says a non-sequence batch argument
raises a structural error; in the code the `TypeError` raised by the
`for` statement is caught by the method-wide `except`, which logs and
returns the empty id list — the call returns normally, changes nothing
and performs no remote call (empty effect list), even against a client
whose calls would all fail. -/
theorem c9_counterexample :
    pyIterList (.int 5) = .error .typeErr
    ∧ import_python_annotations envFail b0 (.int 5) = ([], b0, []) :=
  ⟨rfl, rfl⟩

/-- C9 amended: for a batch argument that is not iterable, the operation
returns the empty identifier list with no state change and no effects —
in particular no remote create call — and does not raise (the structural
`TypeError` is caught and logged by the method itself). -/
theorem c9_amended (env : Env) (b : Bridge) (v : PyVal) (e : PyErr)
    (h : pyIterList v = .error e) :
    import_python_annotations env b v = ([], b, []) := by
  unfold import_python_annotations
  rw [h]

/-- Witness for `c9_amended` at the concrete non-sequence `5`. -/
theorem c9_amended_witness :
    import_python_annotations envOk b0 (.int 5) = ([], b0, []) :=
  c9_amended envOk b0 (.int 5) .typeErr rfl

/-- C4: when `export_collection_for_python` terminates with an error —
including a client error, which propagates unchanged as the same message
(second conjunct) — the local cache, the message queue, the sync state
and the state file are unchanged and the only effect is the one
`get_collections` call: no event was published and no cache write
occurred. -/
theorem c4_error_no_state_change :
    (∀ (env : Env) (b : Bridge) (cid : String) (e : BridgeErr) (b' : Bridge)
        (effs : List Eff),
      export_collection_for_python env b cid = (.error e, b', effs) →
      b'.local_cache = b.local_cache ∧ b'.message_queue = b.message_queue
      ∧ b'.sync_state = b.sync_state ∧ b'.state_file = b.state_file
      ∧ effs = [.remoteCall "get_collections" []])
    ∧ (∀ (env : Env) (b : Bridge) (cid : String) (m : String),
      env.client.get_collections = .error m →
      (export_collection_for_python env b cid).1 = .error (.api m)) := by
  constructor
  · intro env b cid e b' effs H
    unfold export_collection_for_python at H
    split at H
    · simp only [Prod.mk.injEq] at H
      obtain ⟨-, h2, h3⟩ := H
      subst h2; subst h3
      exact ⟨rfl, rfl, rfl, rfl, rfl⟩
    · split at H
      · simp only [Prod.mk.injEq] at H
        obtain ⟨-, h2, h3⟩ := H
        subst h2; subst h3
        exact ⟨rfl, rfl, rfl, rfl, rfl⟩
      · dsimp only at H
        split at H
        · simp only [Prod.mk.injEq] at H
          obtain ⟨-, h2, h3⟩ := H
          subst h2; subst h3
          exact ⟨rfl, rfl, rfl, rfl, rfl⟩
        · simp only [Prod.mk.injEq] at H
          exact absurd H.1 (by simp)
  · intro env b cid m hc
    unfold export_collection_for_python
    rw [hc]

/-- Witness for `c4_error_no_state_change` against the failing
client: the export fails, propagating the client message, and the
default bridge is returned unchanged. -/
theorem c4_witness :
    ((export_collection_for_python envFail b0 "c1").2.1.local_cache
        = b0.local_cache
      ∧ (export_collection_for_python envFail b0 "c1").1
        = .error (.api "connection refused")) :=
  ⟨((c4_error_no_state_change.1 envFail b0 "c1" (.api "connection refused")
      b0 [.remoteCall "get_collections" []]) rfl).1,
   c4_error_no_state_change.2 envFail b0 "c1" "connection refused" rfl⟩

/-- Helper for C2: running the retry loop from attempt `a` over `d`
consecutive transport failures reaches attempt `a + d` having added the
backoff sleeps `2^a + ... + 2^(a+d-1) = 2^(a+d) - 2^a`. -/
theorem makeRequestGo_skip (cfg : ApiCfg) (outcomes : Nat → Outcome)
    (ms : Nat → String) :
    ∀ (d a slept : Nat), a + d ≤ cfg.max_retries →
    (∀ i, a ≤ i → i < a + d → outcomes i = .transport (ms i)) →
    makeRequestGo cfg outcomes (cfg.max_retries + 1 - a) a slept
      = makeRequestGo cfg outcomes (cfg.max_retries + 1 - (a + d)) (a + d)
          (slept + (2 ^ (a + d) - 2 ^ a)) := by
  intro d
  induction d with
  | zero => intro a slept h1 h2; simp
  | succ d ih =>
    intro a slept h1 h2
    have hfuel : cfg.max_retries + 1 - a = (cfg.max_retries - a) + 1 := by omega
    rw [hfuel]
    have hout := h2 a le_rfl (by omega)
    simp only [makeRequestGo, hout]
    rw [if_neg (by omega : ¬ a = cfg.max_retries)]
    have hfuel2 : cfg.max_retries - a = cfg.max_retries + 1 - (a + 1) := by omega
    rw [hfuel2]
    have hrec := ih (a + 1) (slept + 2 ^ a) (by omega)
        (fun i hi1 hi2 => h2 i (by omega) (by omega))
    rw [hrec]
    have hidx : a + 1 + d = a + (d + 1) := by omega
    rw [hidx]
    have hpow : 2 ^ (a + 1) ≤ 2 ^ (a + (d + 1)) :=
      Nat.pow_le_pow_right (by norm_num) (by omega)
    have hpow2 : 2 ^ (a + 1) = 2 * 2 ^ a := by rw [Nat.pow_succ]; ring
    have hpos : 1 ≤ 2 ^ a := Nat.one_le_two_pow
    congr 1
    omega

/-- C2: `_make_request` retries only transport-level failures, sleeping
`2^attempt` seconds after failed attempt number `attempt` (so `k`
leading transport failures cost `2^k - 1` seconds in total), up to
`max_retries` retries; a delivered HTTP response ends the loop at once —
status `< 400` is returned, status `≥ 400` raises `MysticalAPIError`
with the message embedding the status code and any `message` field of a
JSON error body (`statusErrMsg`), with no further attempt.  When every
attempt fails at the transport level the error raised after attempt
`max_retries` is the transport error, with no sleep after the final
attempt.  With `max_retries = 2` and two failures before a success this
gives sleeps `2^0 + 2^1 = 3` (see the witness). -/
theorem c2_retry_and_error_policy (cfg : ApiCfg) (outcomes : Nat → Outcome)
    (ms : Nat → String) :
    (∀ (k st : Nat) (body : Option PyVal),
      k ≤ cfg.max_retries →
      (∀ i, i < k → outcomes i = .transport (ms i)) →
      outcomes k = .response st body →
      (makeRequest cfg outcomes).attempts = k + 1
      ∧ (makeRequest cfg outcomes).slept = 2 ^ k - 1
      ∧ (st < 400 → (makeRequest cfg outcomes).result = .ok (st, body))
      ∧ (400 ≤ st → (makeRequest cfg outcomes).result
            = .error (statusErrMsg cfg st body)))
    ∧ ((∀ i, i ≤ cfg.max_retries → outcomes i = .transport (ms i)) →
      (makeRequest cfg outcomes).result
          = .error (transportErrMsg cfg (ms cfg.max_retries))
      ∧ (makeRequest cfg outcomes).slept = 2 ^ cfg.max_retries - 1
      ∧ (makeRequest cfg outcomes).attempts = cfg.max_retries + 1) := by
  constructor
  · intro k st body hk ht hr
    have hskip := makeRequestGo_skip cfg outcomes ms k 0 0 (by omega)
        (fun i hi1 hi2 => ht i (by omega))
    have h0 : cfg.max_retries + 1 - 0 = cfg.max_retries + 1 := by omega
    rw [h0] at hskip
    have hfuel : cfg.max_retries + 1 - (0 + k) = (cfg.max_retries - k) + 1 := by
      omega
    rw [hfuel] at hskip
    have hk0 : (0 : Nat) + k = k := by omega
    rw [hk0] at hskip
    unfold makeRequest
    rw [hskip]
    simp only [makeRequestGo, hr]
    have hslept : 0 + (2 ^ k - 2 ^ 0) = 2 ^ k - 1 := by simp
    by_cases hst : 400 ≤ st
    · rw [if_pos hst]
      exact ⟨rfl, hslept, fun hlt => absurd hst (by omega), fun _ => rfl⟩
    · rw [if_neg hst]
      exact ⟨rfl, hslept, fun _ => rfl, fun hge => absurd hge hst⟩
  · intro ht
    have hskip := makeRequestGo_skip cfg outcomes ms cfg.max_retries 0 0 (by omega)
        (fun i hi1 hi2 => ht i (by omega))
    have h0 : cfg.max_retries + 1 - 0 = cfg.max_retries + 1 := by omega
    rw [h0] at hskip
    have hk0 : (0 : Nat) + cfg.max_retries = cfg.max_retries := by omega
    rw [hk0] at hskip
    have hfuel : cfg.max_retries + 1 - cfg.max_retries = 1 := by omega
    rw [hfuel] at hskip
    unfold makeRequest
    rw [hskip]
    simp [makeRequestGo, ht cfg.max_retries le_rfl]

/-- Witness for `c2_retry_and_error_policy`: `max_retries = 2` against a
server failing twice then succeeding — the successful response is
returned on the third attempt after total sleeps `2^0 + 2^1 = 3`. -/
theorem c2_retry_witness :
    (makeRequest cfg2 outFTS).result = .ok (200, Option.none)
    ∧ (makeRequest cfg2 outFTS).slept = 3
    ∧ (makeRequest cfg2 outFTS).attempts = 3 := by
  have h := (c2_retry_and_error_policy cfg2 outFTS msF).1 2 200 Option.none
      (by decide) (fun i hi => by interval_cases i <;> rfl) rfl
  exact ⟨h.2.2.1 (by norm_num), by simpa using h.2.1, by simpa using h.1⟩

/-- Helper for C1: when the import loop finishes without an exception,
the created ids and the validation-skipped items partition the batch. -/
theorem importLoop_complete_partition (cl : Client) :
    ∀ (items : List PyVal) (ids : List String) (effs : List Eff),
      importLoop cl items = (ids, effs, true) →
      ids.length + (items.filter skippedB).length = items.length := by
  intro items
  induction items with
  | nil =>
    intro ids effs H
    unfold importLoop at H
    simp only [Prod.mk.injEq] at H
    simp [← H.1]
  | cons item rest ih =>
    intro ids effs H
    unfold importLoop at H
    rcases hv : validCheck item with e | bv
    · simp only [hv] at H; simp at H
    · simp only [hv] at H
      cases bv with
      | false =>
        have hid := ih ids effs H
        have hsk : skippedB item = true := by simp [skippedB, hv]
        simp only [List.filter_cons, hsk, List.length_cons, if_pos]
        omega
      | true =>
        rcases h1 : pyGetItemS item "entryId" with e1 | eid
        · simp only [h1] at H; simp at H
        · simp only [h1] at H
          rcases h2 : pyGetItemS item "content" with e2 | cont
          · simp only [h2] at H; simp at H
          · simp only [h2] at H
            rcases h3 : pyGet item "authorName" (.str "Python Bridge") with e3 | auth
            · simp only [h3] at H; simp at H
            · simp only [h3] at H
              rcases h4 : cl.create_annotation eid cont auth with e4 | aid
              · simp only [h4] at H; simp at H
              · simp only [h4] at H
                rcases hr : importLoop cl rest with ⟨ids2, effs2, ok2⟩
                rw [hr] at H
                simp only [Prod.mk.injEq] at H
                obtain ⟨hids, -, hok⟩ := H
                subst hok
                have hrec := ih ids2 effs2 hr
                have hsk : skippedB item = false := by simp [skippedB, hv]
                simp only [List.filter_cons, hsk, List.length_cons, ← hids,
                  if_neg, Bool.false_eq_true, not_false_iff]
                omega

/-- C1 counterexample: a batch of two valid annotation records against a
client whose `create_annotation` raises.  The claim requires per-item
failure records and continued processing; the code instead catches the
first remote failure in the method-wide `except` and returns the partial
id list: zero identifiers are returned, neither item is recorded as
skipped (both validate), no error list exists, and only one remote
create call was issued — the second item was never processed, so
`successes + skipped + errors = 0 ≠ 2 = len(batch)` under any reading. -/
theorem c1_counterexample :
    skippedB item1 = false ∧ skippedB item2 = false
    ∧ import_python_annotations envFail b0 (.list [item1, item2])
        = ([], b0,
           [.remoteCall "create_annotation" [.str "e1", .str "c", .str "a"]]) :=
  ⟨rfl, rfl, rfl⟩

/-- C1 amended: when the loop completes without an exception, the
created identifiers together with the validation-skipped items exactly
partition the batch (`len(ids) + len(skipped) = len(batch)`); when an
exception occurs at some item (for instance a failing remote create),
processing stops there and the method catches the exception and returns
the identifiers created so far with the bridge state unchanged and no
completion event — it never raises for item-level failures. -/
theorem c1_amended (env : Env) (b : Bridge) (input : PyVal)
    (items : List PyVal) (ids : List String) (effs : List Eff) (ok : Bool)
    (hiter : pyIterList input = .ok items)
    (hloop : importLoop env.client items = (ids, effs, ok)) :
    (ok = true → ids.length + (items.filter skippedB).length = items.length)
    ∧ (ok = false → import_python_annotations env b input = (ids, b, effs)) := by
  constructor
  · intro hok
    subst hok
    exact importLoop_complete_partition env.client items ids effs hloop
  · intro hok
    subst hok
    unfold import_python_annotations
    simp [hiter, hloop]

/-- Witness for `c1_amended`: a two-item batch against the succeeding
client creates two annotations and skips nothing. -/
theorem c1_amended_witness :
    (["ann1", "ann1"] : List String).length
        + (([item1, item2] : List PyVal).filter skippedB).length
      = ([item1, item2] : List PyVal).length :=
  (c1_amended envOk b0 (.list [item1, item2]) [item1, item2] ["ann1", "ann1"]
      [.remoteCall "create_annotation" [.str "e1", .str "c", .str "a"],
       .remoteCall "create_annotation" [.str "e2", .str "d", .str "a"]] true
      rfl rfl).1 rfl

/-- Helper: a successful string subscript implies the value was a dict. -/
theorem pyGetItemS_ok_dict (v : PyVal) (k : String) (x : PyVal)
    (h : pyGetItemS v k = .ok x) : ∃ kvs, v = PyVal.dict kvs := by
  cases v <;> first
    | exact ⟨_, rfl⟩
    | simp [pyGetItemS] at h

/-- Helper for C8: every exception the load body can raise occurs before
any assignment to the bridge, so the bridge escapes unchanged — parsing
failures are atomic resets, never partial updates. -/
theorem loadBody_error_preserve (doc : PyVal) (b : Bridge) (e : PyErr)
    (b' : Bridge) (H : loadBody doc b = Sum.inr (e, b')) : b' = b := by
  unfold loadBody at H
  rcases hIn : pyIn "sync_state" doc with e0 | cond
  · simp only [hIn] at H
    simp only [Sum.inr.injEq, Prod.mk.injEq] at H
    exact H.2.symm
  · simp only [hIn] at H
    cases cond with
    | false =>
      rw [if_neg (by simp)] at H
      rcases hg : pyGet doc "local_cache" (.dict []) with e1 | lc
      · simp only [hg] at H
        simp only [Sum.inr.injEq, Prod.mk.injEq] at H
        exact H.2.symm
      · simp only [hg] at H
        simp at H
    | true =>
      rw [if_pos rfl] at H
      rcases hgi : pyGetItemS doc "sync_state" with e1 | sd
      · simp only [hgi] at H
        simp only [Sum.inr.injEq, Prod.mk.injEq] at H
        exact H.2.symm
      · simp only [hgi] at H
        rcases hls : pyGetItemS sd "last_sync" with e2 | lsv
        · simp only [hls] at H
          simp only [Sum.inr.injEq, Prod.mk.injEq] at H
          exact H.2.symm
        · simp only [hls] at H
          rcases hiso : fromisoformat lsv with e3 | t
          · simp only [hiso] at H
            simp only [Sum.inr.injEq, Prod.mk.injEq] at H
            exact H.2.symm
          · simp only [hiso] at H
            obtain ⟨dk, rfl⟩ := pyGetItemS_ok_dict doc "sync_state" sd hgi
            obtain ⟨kvs, rfl⟩ := pyGetItemS_ok_dict sd "last_sync" lsv hls
            simp only [pyGet] at H
            simp at H

/-- C8: `_load_shared_state` never raises, and a missing file, a file
that is not valid JSON, or a document on which the body raises (any
malformed shape) leaves the bridge exactly as constructed — default
`SyncState` and empty cache on a fresh bridge. -/
theorem c8_load_defaults_on_malformed :
    (∀ b : Bridge, load_shared_state Option.none b = b)
    ∧ (∀ b : Bridge, load_shared_state (some Option.none) b = b)
    ∧ (∀ (doc : PyVal) (b : Bridge) (e : PyErr) (b' : Bridge),
        loadBody doc b = Sum.inr (e, b') →
        load_shared_state (some (some doc)) b = b) := by
  refine ⟨fun b => rfl, fun b => rfl, fun doc b e b' H => ?_⟩
  unfold load_shared_state
  simp only [H]
  exact loadBody_error_preserve doc b e b' H

/-- Witness for `c8_load_defaults_on_malformed`: a file whose JSON
document is the number `5` (not an object) resets nothing on the fresh
bridge. -/
theorem c8_witness :
    load_shared_state (some (some (.int 5))) b0 = b0 :=
  c8_load_defaults_on_malformed.2.2 (.int 5) b0 .typeErr b0 rfl

/-- Helper: looking up the assigned key after a dict assignment yields
the assigned value. -/
theorem kvLookup_kvSet_self (kvs : List (String × PyVal)) (k : String)
    (v : PyVal) : kvLookup (kvSet kvs k v) k = some v := by
  unfold kvSet kvLookup
  induction kvs with
  | nil => simp
  | cons p t ih =>
    rw [List.any_cons]
    by_cases hp : (p.1 == k) = true
    · rw [hp, Bool.true_or, if_pos rfl, List.map_cons, if_pos hp]
      simp [List.find?_cons]
    · have hp' : (p.1 == k) = false := Bool.eq_false_iff.mpr hp
      rw [hp', Bool.false_or]
      by_cases ht : (t.any fun p => p.1 == k) = true
      · rw [ht, if_pos rfl, List.map_cons, if_neg (by simp [hp'])]
        rw [if_pos ht] at ih
        simpa [List.find?_cons, hp'] using ih
      · have ht' := Bool.eq_false_iff.mpr ht
        rw [ht', if_neg (by simp), List.cons_append]
        rw [if_neg (by simp [ht'])] at ih
        simpa [List.find?_cons, hp'] using ih

/-- Helper: a dict assignment leaves every other key's lookup
unchanged. -/
theorem kvLookup_kvSet_ne (kvs : List (String × PyVal)) (k k' : String)
    (v : PyVal) (h : k' ≠ k) :
    kvLookup (kvSet kvs k v) k' = kvLookup kvs k' := by
  have hk : (k == k') = false := by
    simp only [beq_eq_false_iff_ne, ne_eq]
    exact fun hh => h hh.symm
  unfold kvSet kvLookup
  induction kvs with
  | nil => simp [List.find?, hk]
  | cons p t ih =>
    rw [List.any_cons]
    by_cases hp : (p.1 == k) = true
    · have hpeq : p.1 = k := by simpa using hp
      have hpk : (p.1 == k') = false := by rw [hpeq]; exact hk
      rw [hp, Bool.true_or, if_pos rfl, List.map_cons, if_pos hp]
      simp only [List.find?_cons, hk, hpk]
      by_cases ht : (t.any fun q => q.1 == k) = true
      · rw [if_pos ht] at ih
        simpa [List.find?_cons, hpk] using ih
      · have ht' : (t.any fun q => q.1 == k) = false := Bool.eq_false_iff.mpr ht
        have hmapid : t.map (fun q => if q.1 == k then (k, v) else q) = t := by
          refine (List.map_congr_left fun q hq => ?_).trans (List.map_id t)
          have hq' : (q.1 == k) = false := by
            rcases List.any_eq_false.mp ht' q hq with hh
            simpa using hh
          simp [hq']
        rw [hmapid]
    · have hp' : (p.1 == k) = false := Bool.eq_false_iff.mpr hp
      rw [hp', Bool.false_or]
      by_cases hpk' : (p.1 == k') = true
      · by_cases ht : (t.any fun q => q.1 == k) = true
        · rw [ht, if_pos rfl, List.map_cons, if_neg (by simp [hp'])]
          simp [List.find?_cons, hpk']
        · rw [Bool.eq_false_iff.mpr ht, if_neg (by simp), List.cons_append]
          simp [List.find?_cons, hpk']
      · have hpk'' : (p.1 == k') = false := Bool.eq_false_iff.mpr hpk'
        by_cases ht : (t.any fun q => q.1 == k) = true
        · rw [ht, if_pos rfl, List.map_cons, if_neg (by simp [hp'])]
          rw [if_pos ht] at ih
          simpa [List.find?_cons, hpk''] using ih
        · rw [Bool.eq_false_iff.mpr ht, if_neg (by simp), List.cons_append]
          rw [if_neg (by simp [Bool.eq_false_iff.mpr ht])] at ih
          simpa [List.find?_cons, hpk''] using ih

/-- Helper: the increment branch of `histInc` raises the count sum by
one when the keys are distinct. -/
theorem sumHist_mapInc (t : List (String × Nat)) (c : String) :
    (t.map Prod.fst).Nodup → (t.any fun p => p.1 == c) = true →
    sumHist (t.map (fun q => if q.1 == c then (q.1, q.2 + 1) else q))
      = sumHist t + 1 := by
  induction t with
  | nil => intro _ ha; simp at ha
  | cons p t ih =>
    intro hnd ha
    simp only [List.map_cons, List.nodup_cons] at hnd
    rw [List.any_cons] at ha
    by_cases hp : p.1 = c
    · have hmapid : t.map (fun q => if q.1 == c then (q.1, q.2 + 1) else q) = t := by
        refine (List.map_congr_left fun q hq => ?_).trans (List.map_id t)
        have hqc : q.1 ≠ c := by
          intro hqc
          exact hnd.1 (by
            rw [hp, ← hqc]
            exact List.mem_map_of_mem Prod.fst hq)
        simp [hqc]
      rw [List.map_cons, if_pos (by simpa using hp), hmapid]
      simp [sumHist]
      omega
    · have hp' : (p.1 == c) = false := by simp [hp]
      rw [hp', Bool.false_or] at ha
      rw [List.map_cons, if_neg (by simp [hp])]
      have := ih hnd.2 ha
      simp only [sumHist, List.map_cons, List.sum_cons] at this ⊢
      omega

/-- Helper: one histogram increment raises the count sum by one when the
keys are distinct (as they are for a dict built by `histInc`). -/
theorem sumHist_histInc (h : List (String × Nat)) (c : String)
    (hnd : (h.map Prod.fst).Nodup) :
    sumHist (histInc h c) = sumHist h + 1 := by
  unfold histInc
  by_cases ha : (h.any fun p => p.1 == c) = true
  · rw [if_pos ha]
    exact sumHist_mapInc h c hnd ha
  · rw [if_neg ha]
    simp [sumHist]

/-- Helper: `histInc` keeps the histogram's keys distinct. -/
theorem histInc_keys_nodup (h : List (String × Nat)) (c : String)
    (hnd : (h.map Prod.fst).Nodup) :
    ((histInc h c).map Prod.fst).Nodup := by
  unfold histInc
  by_cases ha : (h.any fun p => p.1 == c) = true
  · rw [if_pos ha]
    have hmapfst : (h.map fun q => if q.1 == c then (q.1, q.2 + 1) else q).map
        Prod.fst = h.map Prod.fst := by
      rw [List.map_map]
      refine List.map_congr_left fun q _ => ?_
      by_cases hq : q.1 = c <;> simp [hq]
    rw [hmapfst]
    exact hnd
  · rw [if_neg ha]
    have hc : c ∉ h.map Prod.fst := by
      intro hmem
      rcases List.mem_map.mp hmem with ⟨q, hq, hqc⟩
      have := List.any_eq_false.mp (Bool.eq_false_iff.mpr ha) q hq
      simp [hqc] at this
    rw [List.map_append, List.nodup_append]
    refine ⟨hnd, by simp, ?_⟩
    intro a ha1 ha2
    simp at ha2
    rw [ha2] at ha1
    exact hc ha1

/-- Helper: the `cats` component of the export loop is the plain
histogram fold over the entry categories. -/
theorem expStep_cats_fold (es : List Entry) :
    ∀ acc : ExpAcc, (es.foldl expStep acc).cats
      = es.foldl (fun h e => histInc h e.category) acc.cats := by
  induction es with
  | nil => intro acc; rfl
  | cons e es ih => intro acc; exact ih (expStep acc e)

/-- Helper: the histogram fold adds one per entry to the count sum. -/
theorem sumHist_fold (es : List Entry) :
    ∀ (h : List (String × Nat)), (h.map Prod.fst).Nodup →
      sumHist (es.foldl (fun h e => histInc h e.category) h)
        = sumHist h + es.length := by
  induction es with
  | nil => intro h _; simp
  | cons e es ih =>
    intro h hnd
    have h1 := sumHist_histInc h e.category hnd
    have h2 := ih (histInc h e.category) (histInc_keys_nodup h e.category hnd)
    simp only [List.foldl_cons, List.length_cons]
    omega

/-- C3 counterexample: with the identity clock, a successful export of
collection `c1` from the fresh bridge produces a cache entry whose
`exported_at` is the reading `2` and whose `expires_at` is the reading
`3` plus one hour (`"3603"`), because lines 266 and 267 call
`datetime.now()` separately — so `expires_at` is not `exported_at + 1
hour` (`"3602"`). -/
theorem c3_counterexample :
    ((pyField (export_collection_for_python envOk b0 "c1").2.1.local_cache
        "collection_export_c1").bind (fun v => pyField v "exported_at"))
      = some (.str (isoformat 2))
    ∧ ((pyField (export_collection_for_python envOk b0 "c1").2.1.local_cache
        "collection_export_c1").bind (fun v => pyField v "expires_at"))
      = some (.str (isoformat 3603))
    ∧ isoformat 3603 ≠ isoformat (2 + 3600) :=
  ⟨rfl, rfl, by decide⟩

/-- C3 amended: a successful export writes exactly one cache entry — the
new cache is the old one with the single key `collection_export_<id>`
bound to the export bundle (that key's lookup yields the new entry and
every other key's lookup is unchanged) — the entry's `exported_at` is
the second clock reading while its `expires_at` is the *third* clock
reading plus exactly one hour (equal to `exported_at + 1 hour` only when
the two readings coincide), and the category histogram of the exported
metadata sums to the number of exported items. -/
theorem c3_amended (env : Env) (b : Bridge) (cid : String)
    (cols : List Collection) (c : Collection) (kvs : List (String × PyVal))
    (hc : env.client.get_collections = .ok cols)
    (hf : cols.find? (fun x => x.id == cid) = some c)
    (hcache : b.local_cache = .dict kvs) :
    (export_collection_for_python env b cid).1
        = .ok (buildExportData c (c.entries.foldl expStep emptyExpAcc)
            (env.clock b.clock_idx))
    ∧ (export_collection_for_python env b cid).2.1.local_cache
        = .dict (kvSet kvs ("collection_export_" ++ cid)
            (exportCacheValue c (env.clock b.clock_idx)
              (env.clock (b.clock_idx + 1)) (env.clock (b.clock_idx + 2))))
    ∧ kvLookup (kvSet kvs ("collection_export_" ++ cid)
          (exportCacheValue c (env.clock b.clock_idx)
            (env.clock (b.clock_idx + 1)) (env.clock (b.clock_idx + 2))))
        ("collection_export_" ++ cid)
        = some (exportCacheValue c (env.clock b.clock_idx)
            (env.clock (b.clock_idx + 1)) (env.clock (b.clock_idx + 2)))
    ∧ (∀ k', k' ≠ "collection_export_" ++ cid →
        kvLookup (kvSet kvs ("collection_export_" ++ cid)
            (exportCacheValue c (env.clock b.clock_idx)
              (env.clock (b.clock_idx + 1)) (env.clock (b.clock_idx + 2)))) k'
          = kvLookup kvs k')
    ∧ sumHist (c.entries.foldl expStep emptyExpAcc).cats = c.entries.length := by
  refine ⟨?_, ?_, kvLookup_kvSet_self _ _ _,
    fun k' hk' => kvLookup_kvSet_ne _ _ _ _ hk', ?_⟩
  · simp only [export_collection_for_python, hc, hf, hcache, dictAssign]
  · simp only [export_collection_for_python, hc, hf, hcache, dictAssign,
      exportCacheValue, emit_event]
  · rw [expStep_cats_fold c.entries emptyExpAcc]
    have := sumHist_fold c.entries [] (by simp)
    simpa [sumHist] using this

/-- Witness for `c3_amended`: exporting `c1` (two entries, both of
category `alchemy`) gives a histogram summing to 2. -/
theorem c3_amended_witness :
    sumHist (([entryA, entryB] : List Entry).foldl expStep emptyExpAcc).cats
      = ([entryA, entryB] : List Entry).length :=
  (c3_amended envOk b0 "c1" [⟨"c1", "Treatises", .none, [entryA, entryB]⟩]
      ⟨"c1", "Treatises", .none, [entryA, entryB]⟩ [] rfl rfl rfl).2.2.2.2

/-- Helper for C5: the load body on a document whose probes all succeed
assigns exactly the four probed `SyncState` fields and the cache;
`conflict_resolution` is not among them. -/
theorem loadBody_success_shape (doc sync_data lsv : PyVal) (b : Bridge)
    (t : Nat) (rv pv pc lc : PyVal)
    (h1 : pyIn "sync_state" doc = .ok true)
    (h2 : pyGetItemS doc "sync_state" = .ok sync_data)
    (h3 : pyGetItemS sync_data "last_sync" = .ok lsv)
    (h4 : fromisoformat lsv = .ok t)
    (h5 : pyGet sync_data "react_version" (.int 0) = .ok rv)
    (h6 : pyGet sync_data "python_version" (.int 0) = .ok pv)
    (h7 : pyGet sync_data "pending_changes" (.list []) = .ok pc)
    (h8 : pyGet doc "local_cache" (.dict []) = .ok lc) :
    loadBody doc b = Sum.inl { b with
      sync_state := { b.sync_state with
        last_sync := .datetime t
        react_version := rv
        python_version := pv
        pending_changes := pc }
      local_cache := lc } := by
  unfold loadBody
  simp only [h1, h2, h3, h4, h5, h6, h7, h8, if_true]

/-- C5 counterexample: saving a bridge whose `conflict_resolution` is
`react_wins` and loading the written document into a fresh bridge yields
`manual` — the field is serialized by `_save_shared_state` but never
read back by `_load_shared_state`, so the round trip is not
deep-equal. -/
theorem c5_counterexample :
    (load_shared_state
        (Option.map some (save_shared_state envOk bCr).1.state_file)
        (defaultBridge ⟨true, true⟩ 0)).sync_state.conflict_resolution
      = .str "manual"
    ∧ bCr.sync_state.conflict_resolution = .str "react_wins"
    ∧ PyVal.str "manual" ≠ PyVal.str "react_wins" :=
  ⟨rfl, rfl, by simp⟩

/-- C5 amended: `save` followed by `load` restores `last_sync` (exactly,
the serialization being lossless), `react_version`, `python_version`,
`pending_changes` and the cache map, for every JSON-serializable state;
`conflict_resolution` alone is not restored — the loading bridge keeps
its own prior value (the default `manual` on a fresh instance). -/
theorem c5_amended (env : Env) (b fresh : Bridge) (ls : Nat) (rv pv : Int)
    (pc cache : PyVal) (cr : String) (doc : PyVal)
    (hls : b.sync_state.last_sync = .datetime ls)
    (hrv : b.sync_state.react_version = .int rv)
    (hpv : b.sync_state.python_version = .int pv)
    (hpcf : b.sync_state.pending_changes = pc)
    (hcrf : b.sync_state.conflict_resolution = .str cr)
    (hlc : b.local_cache = cache)
    (hpc : jsonize pc = pc) (hcj : jsonize cache = cache)
    (hdoc : (save_shared_state env b).1.state_file = some doc) :
    (load_shared_state (some (some doc)) fresh).sync_state.last_sync
        = .datetime ls
    ∧ (load_shared_state (some (some doc)) fresh).sync_state.react_version
        = .int rv
    ∧ (load_shared_state (some (some doc)) fresh).sync_state.python_version
        = .int pv
    ∧ (load_shared_state (some (some doc)) fresh).sync_state.pending_changes
        = pc
    ∧ (load_shared_state (some (some doc)) fresh).local_cache = cache
    ∧ (load_shared_state (some (some doc)) fresh).sync_state.conflict_resolution
        = fresh.sync_state.conflict_resolution := by
  unfold save_shared_state at hdoc
  rw [hls] at hdoc
  simp only [Option.some.injEq] at hdoc
  subst hdoc
  unfold saveDocCore
  rw [hrv, hpv, hpcf, hcrf, hlc]
  have hshape := loadBody_success_shape
      (.dict
        [("sync_state", .dict
            [("last_sync", .str (isoformat ls)),
             ("react_version", jsonize (.int rv)),
             ("python_version", jsonize (.int pv)),
             ("pending_changes", jsonize pc),
             ("conflict_resolution", jsonize (.str cr))]),
         ("local_cache", jsonize cache),
         ("metadata", .dict
            [("bridge_version", .str "1.0"),
             ("last_updated", .str (isoformat (env.clock b.clock_idx))),
             ("auto_sync", .bool b.config.auto_sync),
             ("bidirectional", .bool b.config.bidirectional)])])
      (.dict
        [("last_sync", .str (isoformat ls)),
         ("react_version", jsonize (.int rv)),
         ("python_version", jsonize (.int pv)),
         ("pending_changes", jsonize pc),
         ("conflict_resolution", jsonize (.str cr))])
      (.str (isoformat ls)) fresh ls (jsonize (.int rv)) (jsonize (.int pv))
      (jsonize pc) (jsonize cache)
      rfl rfl rfl (fromisoformat_isoformat ls) rfl rfl rfl rfl
  unfold load_shared_state
  rw [hpc, hcj] at hshape
  rw [hpc, hcj]
  refine ⟨?_, ?_, ?_, ?_, ?_, ?_⟩ <;> simp only [hshape] <;> try rfl

/-- Witness for `c5_amended`: the round trip of `bSave` restores
`python_version = 4` and the cache, and leaves `conflict_resolution` at
the fresh bridge's default `manual`. -/
theorem c5_amended_witness :
    (load_shared_state (some (some (saveDocCore bSave 5 3)))
        (defaultBridge ⟨false, false⟩ 9)).sync_state.python_version = .int 4
    ∧ (load_shared_state (some (some (saveDocCore bSave 5 3)))
        (defaultBridge ⟨false, false⟩ 9)).local_cache = .dict [("k", .int 7)]
    ∧ (load_shared_state (some (some (saveDocCore bSave 5 3)))
        (defaultBridge ⟨false, false⟩ 9)).sync_state.conflict_resolution
      = .str "manual" := by
  have h := c5_amended envOk bSave (defaultBridge ⟨false, false⟩ 9) 5 3 4
      (.list [.str "x"]) (.dict [("k", .int 7)]) "manual" (saveDocCore bSave 5 3)
      rfl rfl rfl rfl rfl rfl rfl rfl rfl
  exact ⟨h.2.2.1, h.2.2.2.2.1, h.2.2.2.2.2⟩

/-- Helper: `_save_shared_state` never changes the sync state, queue,
cache or handlers — it only writes the file and consumes a clock read. -/
theorem save_preserves (env : Env) (b : Bridge) :
    (save_shared_state env b).1.sync_state = b.sync_state
    ∧ (save_shared_state env b).1.message_queue = b.message_queue
    ∧ (save_shared_state env b).1.local_cache = b.local_cache := by
  unfold save_shared_state
  split <;> exact ⟨rfl, rfl, rfl⟩

/-- Helper: the effects of `_save_shared_state` are file writes only. -/
theorem save_effs (env : Env) (b : Bridge) :
    ∀ f ∈ (save_shared_state env b).2, ∃ d, f = Eff.fileWrite d := by
  unfold save_shared_state
  split
  · intro f hf
    simp at hf
    exact ⟨_, hf⟩
  · intro f hf
    simp at hf

/-- Helper: every effect `emit_event` produces is a handler invocation
for the emitted type. -/
theorem emit_effs (env : Env) (b : Bridge) (etype : String) (payload : PyVal) :
    ∀ f ∈ (emit_event env b etype payload).2,
      ∃ hid ok, f = Eff.handlerRun hid etype ok := by
  intro f hf
  unfold emit_event at hf
  rcases List.mem_map.mp hf with ⟨h, -, rfl⟩
  exact ⟨h.hid, _, rfl⟩

/-- Helper: `import_python_annotations` never touches the sync state,
the state file or the cache, and can only append `annotations_imported`
messages to the queue. -/
theorem import_preserves (env : Env) (b : Bridge) (input : PyVal) :
    (import_python_annotations env b input).2.1.sync_state = b.sync_state
    ∧ (import_python_annotations env b input).2.1.state_file = b.state_file
    ∧ (import_python_annotations env b input).2.1.local_cache = b.local_cache
    ∧ (∀ m ∈ (import_python_annotations env b input).2.1.message_queue,
        m ∈ b.message_queue ∨ m.type = "annotations_imported") := by
  unfold import_python_annotations
  rcases h : pyIterList input with e | items
  · exact ⟨rfl, rfl, rfl, fun m hm => Or.inl hm⟩
  · simp only []
    by_cases hok : (importLoop env.client items).2.2 = true
    · rw [if_pos hok]
      refine ⟨rfl, rfl, rfl, fun m hm => ?_⟩
      rcases List.mem_append.mp hm with h1 | h2
      · exact Or.inl h1
      · simp at h2
        exact Or.inr (by rw [h2]; rfl)
    · rw [if_neg hok]
      exact ⟨rfl, rfl, rfl, fun m hm => Or.inl hm⟩

/-- Helper: the import loop's effects are remote calls only. -/
theorem importLoop_effs_remote (cl : Client) :
    ∀ (items : List PyVal) (f : Eff), f ∈ (importLoop cl items).2.1 →
      ∃ a as, f = Eff.remoteCall a as := by
  intro items
  induction items with
  | nil => intro f hf; simp [importLoop] at hf
  | cons item rest ih =>
    intro f hf
    unfold importLoop at hf
    rcases hv : validCheck item with e | bv
    · simp only [hv] at hf; simp at hf
    · simp only [hv] at hf
      cases bv with
      | false => exact ih f hf
      | true =>
        rcases h1 : pyGetItemS item "entryId" with e1 | eid
        · simp only [h1] at hf; simp at hf
        · simp only [h1] at hf
          rcases h2 : pyGetItemS item "content" with e2 | cont
          · simp only [h2] at hf; simp at hf
          · simp only [h2] at hf
            rcases h3 : pyGet item "authorName" (.str "Python Bridge") with e3 | auth
            · simp only [h3] at hf; simp at hf
            · simp only [h3] at hf
              rcases h4 : cl.create_annotation eid cont auth with e4 | aid
              · simp only [h4] at hf
                simp at hf
                exact ⟨_, _, hf⟩
              · simp only [h4] at hf
                rcases List.mem_cons.mp hf with h5 | h5
                · exact ⟨_, _, h5⟩
                · exact ih f h5

/-- Helper: the effects of `import_python_annotations` are remote calls
and `annotations_imported` handler invocations only. -/
theorem import_effs_kinds (env : Env) (b : Bridge) (input : PyVal) :
    ∀ f ∈ (import_python_annotations env b input).2.2,
      (∃ a as, f = Eff.remoteCall a as)
      ∨ ∃ hid ok, f = Eff.handlerRun hid "annotations_imported" ok := by
  intro f hf
  unfold import_python_annotations at hf
  rcases h : pyIterList input with e | items
  · simp only [h] at hf; simp at hf
  · simp only [h] at hf
    by_cases hok : (importLoop env.client items).2.2 = true
    · rw [if_pos hok] at hf
      rcases List.mem_append.mp hf with h1 | h2
      · exact Or.inl (importLoop_effs_remote env.client items f h1)
      · exact Or.inr (emit_effs env b "annotations_imported" _ f h2)
    · rw [if_neg hok] at hf
      exact Or.inl (importLoop_effs_remote env.client items f hf)

/-- Helper: the bookmark loop's effects are remote calls only. -/
theorem bookmarksLoop_effs_remote (cl : Client) :
    ∀ (xs : List PyVal) (f : Eff), f ∈ (bookmarksLoop cl xs).1 →
      ∃ a as, f = Eff.remoteCall a as := by
  intro xs
  induction xs with
  | nil => intro f hf; simp [bookmarksLoop] at hf
  | cons bd rest ih =>
    intro f hf
    unfold bookmarksLoop at hf
    rcases h1 : pyGetItemS bd "entryId" with e1 | eid
    · simp only [h1] at hf; simp at hf
    · simp only [h1] at hf
      rcases h2 : pyGet bd "isBookmarked" (.bool true) with e2 | isb
      · simp only [h2] at hf; simp at hf
      · simp only [h2] at hf
        rcases h3 : pyGet bd "personalNotes" .none with e3 | pn
        · simp only [h3] at hf; simp at hf
        · simp only [h3] at hf
          rcases h4 : cl.create_bookmark eid isb pn with e4 | u
          · simp only [h4] at hf
            simp at hf
            exact ⟨_, _, hf⟩
          · simp only [h4] at hf
            rcases List.mem_cons.mp hf with h5 | h5
            · exact ⟨_, _, h5⟩
            · exact ih f h5

/-- Helper: the collection loop's effects are remote calls only. -/
theorem collectionsLoop_effs_remote (cl : Client) :
    ∀ (xs : List PyVal) (f : Eff), f ∈ (collectionsLoop cl xs).1 →
      ∃ a as, f = Eff.remoteCall a as := by
  intro xs
  induction xs with
  | nil => intro f hf; simp [collectionsLoop] at hf
  | cons cd rest ih =>
    intro f hf
    unfold collectionsLoop at hf
    rcases h1 : pyGetItemS cd "title" with e1 | t
    · simp only [h1] at hf; simp at hf
    · simp only [h1] at hf
      rcases h2 : pyGet cd "entryIds" (.list []) with e2 | eids
      · simp only [h2] at hf; simp at hf
      · simp only [h2] at hf
        rcases h3 : pyGet cd "notes" .none with e3 | notes
        · simp only [h3] at hf; simp at hf
        · simp only [h3] at hf
          rcases h4 : pyGet cd "isPublic" (.bool false) with e4 | isPub
          · simp only [h4] at hf; simp at hf
          · simp only [h4] at hf
            rcases h5 : cl.create_collection t eids notes isPub with e5 | u
            · simp only [h5] at hf
              simp at hf
              exact ⟨_, _, hf⟩
            · simp only [h5] at hf
              rcases List.mem_cons.mp hf with h6 | h6
              · exact ⟨_, _, h6⟩
              · exact ih f h6

/-- Helper: a phase's effects are its loop's effects (remote calls). -/
theorem syncPhase_effs_remote (data : PyVal) (key : String)
    (loop : List PyVal → List Eff × Bool)
    (hl : ∀ (xs : List PyVal) (f : Eff), f ∈ (loop xs).1 →
      ∃ a as, f = Eff.remoteCall a as) :
    ∀ f ∈ (syncPhase data key loop).1, ∃ a as, f = Eff.remoteCall a as := by
  intro f hf
  unfold syncPhase at hf
  rcases h : pyIn key data with e | c
  · simp only [h] at hf; simp at hf
  · simp only [h] at hf
    cases c with
    | false => rw [if_neg (by simp)] at hf; simp at hf
    | true =>
      rw [if_pos rfl] at hf
      rcases h2 : pyGetItemS data key with e2 | v
      · simp only [h2] at hf; simp at hf
      · simp only [h2] at hf
        rcases h3 : pyIterList v with e3 | xs
        · simp only [h3] at hf; simp at hf
        · simp only [h3] at hf
          exact hl xs f hf

/-- Helper: a key present in a dict (the membership test succeeded)
makes the subscript succeed. -/
theorem pyGetItemS_of_any (kvs : List (String × PyVal)) (k : String)
    (h : (kvs.any fun p => p.1 == k) = true) :
    ∃ x, pyGetItemS (.dict kvs) k = .ok x := by
  unfold pyGetItemS kvLookup
  induction kvs with
  | nil => simp at h
  | cons p t ih =>
    rw [List.any_cons] at h
    by_cases hp : (p.1 == k) = true
    · exact ⟨p.2, by simp [List.find?_cons, hp]⟩
    · have hp' : (p.1 == k) = false := Bool.eq_false_iff.mpr hp
      rw [hp', Bool.false_or] at h
      rcases ih h with ⟨x, hx⟩
      exact ⟨x, by simpa [List.find?_cons, hp'] using hx⟩

/-- Helper: `export_collection_for_python` never changes the sync
state. -/
theorem export_preserves_sync_state (env : Env) (b : Bridge) (cid : String) :
    (export_collection_for_python env b cid).2.1.sync_state = b.sync_state := by
  unfold export_collection_for_python
  split
  · rfl
  · split
    · rfl
    · dsimp only
      split
      · rfl
      · rfl

/-- Helper: the bookkeeping tail either leaves `python_version` alone (on
a failure before the increment) or increments it exactly once, and it
always increments when it returns `True`. -/
theorem syncFinish_pv (env : Env) (b2 : Bridge) (data : PyVal)
    (effsPre : List Eff) (n : Int)
    (hn : b2.sync_state.python_version = .int n) :
    ((syncFinish env b2 data effsPre).2.1.sync_state.python_version = .int n
      ∨ (syncFinish env b2 data effsPre).2.1.sync_state.python_version
          = .int (n + 1))
    ∧ ((syncFinish env b2 data effsPre).1 = true →
        (syncFinish env b2 data effsPre).2.1.sync_state.python_version
          = .int (n + 1)) := by
  unfold syncFinish
  by_cases hcl : (syncPhase data "collections" (collectionsLoop env.client)).2 = true
  · rw [if_pos hcl, hn]
    simp only [pyIncr]
    rcases hk : pyKeys data with e | ks
    · simp only [hk]
      refine ⟨Or.inr ?_, fun ht => absurd ht (by simp)⟩
      rw [(save_preserves env _).1]
    · simp only [hk]
      refine ⟨Or.inr ?_, fun _ => ?_⟩ <;>
        · show ((save_shared_state env _).1.sync_state.python_version = _)
          rw [(save_preserves env _).1]
  · rw [if_neg hcl]
    exact ⟨Or.inl hn, fun ht => absurd ht (by simp)⟩

/-- Helper: on a dict payload the bookkeeping tail returns `False` only
from the collections loop or the version increment, both of which leave
the bridge as it was and add only the collections-loop effects. -/
theorem syncFinish_false_dict (env : Env) (b2 : Bridge)
    (kvs : List (String × PyVal)) (effsPre : List Eff) (b' : Bridge)
    (effs : List Eff)
    (H : syncFinish env b2 (.dict kvs) effsPre = (false, b', effs)) :
    b' = b2
    ∧ effs = effsPre
        ++ (syncPhase (.dict kvs) "collections" (collectionsLoop env.client)).1 := by
  unfold syncFinish at H
  by_cases hcl : (syncPhase (.dict kvs) "collections" (collectionsLoop env.client)).2 = true
  · rw [if_pos hcl] at H
    rcases hi : pyIncr b2.sync_state.python_version with e | pv
    · simp only [hi] at H
      simp only [Prod.mk.injEq] at H
      exact ⟨H.2.1.symm, H.2.2.symm⟩
    · simp only [hi] at H
      rcases hk : pyKeys (.dict kvs) with e | ks
      · exact absurd hk (by simp [pyKeys])
      · simp only [hk] at H
        simp at H
  · rw [if_neg hcl] at H
    simp only [Prod.mk.injEq] at H
    exact ⟨H.2.1.symm, H.2.2.symm⟩

/-- C6 counterexample: a fully successful import-from-local operation
(one valid record, remote create succeeds, `annotations_imported`
emitted) leaves `python_version` untouched — the increment the claim
requires happens only in `sync_python_data_to_react`, not in
`import_python_annotations`. -/
theorem c6_counterexample :
    (import_python_annotations envOk b0 (.list [item1])).1 = ["ann1"]
    ∧ (import_python_annotations envOk b0
        (.list [item1])).2.1.sync_state.python_version
      = b0.sync_state.python_version :=
  ⟨rfl, rfl⟩

/-- C6 amended: `python_version` is never modified by
`import_python_annotations`, `export_collection_for_python` or
`emit_event` (their sync state is untouched); it is incremented exactly
once by every `sync_python_data_to_react` invocation that returns
`True`, and by every invocation it either stays equal or is incremented
by one — it is never decremented. -/
theorem c6_amended :
    (∀ (env : Env) (b : Bridge) (input : PyVal),
      (import_python_annotations env b input).2.1.sync_state = b.sync_state)
    ∧ (∀ (env : Env) (b : Bridge) (cid : String),
      (export_collection_for_python env b cid).2.1.sync_state = b.sync_state)
    ∧ (∀ (env : Env) (b : Bridge) (etype : String) (payload : PyVal),
      (emit_event env b etype payload).1.sync_state = b.sync_state)
    ∧ (∀ (env : Env) (b : Bridge) (data : PyVal) (res : Bool) (b' : Bridge)
        (effs : List Eff) (n : Int),
      sync_python_data_to_react env b data = (res, b', effs) →
      b.sync_state.python_version = .int n →
      (b'.sync_state.python_version = .int n
        ∨ b'.sync_state.python_version = .int (n + 1))
      ∧ (res = true → b'.sync_state.python_version = .int (n + 1))) := by
  refine ⟨fun env b input => (import_preserves env b input).1,
    fun env b cid => export_preserves_sync_state env b cid,
    fun env b etype payload => rfl,
    fun env b data res b' effs n H hn => ?_⟩
  unfold sync_python_data_to_react at H
  by_cases h1 : (syncPhase data "bookmarks" (bookmarksLoop env.client)).2 = true
  · rw [if_pos h1] at H
    rcases h2 : pyIn "annotations" data with e | condA
    · simp only [h2] at H
      simp only [Prod.mk.injEq] at H
      obtain ⟨hres, hb, -⟩ := H
      exact ⟨Or.inl (hb ▸ hn), fun ht => absurd (hres.trans ht) (by simp)⟩
    · simp only [h2] at H
      cases condA with
      | false =>
        rw [if_neg (by simp)] at H
        have hh := syncFinish_pv env b data
            (syncPhase data "bookmarks" (bookmarksLoop env.client)).1 n hn
        rw [H] at hh
        exact hh
      | true =>
        rw [if_pos rfl] at H
        rcases h3 : pyGetItemS data "annotations" with e3 | av
        · simp only [h3] at H
          simp only [Prod.mk.injEq] at H
          obtain ⟨hres, hb, -⟩ := H
          exact ⟨Or.inl (hb ▸ hn), fun ht => absurd (hres.trans ht) (by simp)⟩
        · simp only [h3] at H
          have hbs := (import_preserves env b av).1
          have hh := syncFinish_pv env
              (import_python_annotations env b av).2.1 data
              ((syncPhase data "bookmarks" (bookmarksLoop env.client)).1
                ++ (import_python_annotations env b av).2.2) n
              (by rw [hbs]; exact hn)
          rw [H] at hh
          exact hh
  · rw [if_neg h1] at H
    simp only [Prod.mk.injEq] at H
    obtain ⟨hres, hb, -⟩ := H
    exact ⟨Or.inl (hb ▸ hn), fun ht => absurd (hres.trans ht) (by simp)⟩

/-- Witness for `c6_amended`: a successful sync of one annotation batch
increments `python_version` from 0 to 1. -/
theorem c6_amended_witness :
    (sync_python_data_to_react envOk b0
        (.dict [("annotations", .list [item1])])).2.1.sync_state.python_version
      = .int (0 + 1) :=
  (c6_amended.2.2.2 envOk b0 (.dict [("annotations", .list [item1])])
      (sync_python_data_to_react envOk b0
        (.dict [("annotations", .list [item1])])).1
      (sync_python_data_to_react envOk b0
        (.dict [("annotations", .list [item1])])).2.1
      (sync_python_data_to_react envOk b0
        (.dict [("annotations", .list [item1])])).2.2
      0 rfl rfl).2 rfl

/-- C10 counterexample: with a client whose `create_annotation` always
raises, syncing a payload containing one valid annotation record returns
`True` and increments `python_version` — the remote failure was absorbed
inside `import_python_annotations`, so the claim's "any underlying remote
call raises ⇒ returns False with no state change" is false.  The first
recorded effect is the failing remote create call. -/
theorem c10_counterexample :
    (sync_python_data_to_react envFail b0
        (.dict [("annotations", .list [item1])])).1 = true
    ∧ (sync_python_data_to_react envFail b0
        (.dict [("annotations", .list [item1])])).2.1.sync_state.python_version
      = .int 1
    ∧ b0.sync_state.python_version = .int 0
    ∧ clFail.create_annotation (.str "e1") (.str "c") (.str "a")
        = .error "create_annotation failed"
    ∧ (sync_python_data_to_react envFail b0
        (.dict [("annotations", .list [item1])])).2.2.head?
      = some (.remoteCall "create_annotation" [.str "e1", .str "c", .str "a"]) :=
  ⟨rfl, rfl, rfl, rfl, rfl⟩

/-- Helper: when the collections phase fails, the bookkeeping tail
returns `False`. -/
theorem syncFinish_false_of_clFalse (env : Env) (b2 : Bridge) (data : PyVal)
    (effsPre : List Eff)
    (hcl : (syncPhase data "collections" (collectionsLoop env.client)).2
      = false) :
    (syncFinish env b2 data effsPre).1 = false := by
  unfold syncFinish
  rw [if_neg (by simp [hcl])]

/-- C10 amended: on a dict payload the operation never raises; whenever
it returns `False` (a failing bookmark or collection create call, or a
malformed record), `python_version`, `last_sync` and the state file are
unchanged, nothing was persisted (no file-write effect), the
`python_data_synced` event was not delivered to any handler, and any
message added to the queue is an `annotations_imported` event; a failure
in the bookmarks section always yields `False`, and so does a failure in
the collections section (a failing `create_collection` or a malformed
collection record makes that phase report failure).  (A failing
`create_annotation` does *not* yield `False`: it is absorbed inside
`import_python_annotations` — see the counterexample.) -/
theorem c10_amended (env : Env) (b : Bridge) (kvs : List (String × PyVal))
    (res : Bool) (b' : Bridge) (effs : List Eff)
    (H : sync_python_data_to_react env b (.dict kvs) = (res, b', effs)) :
    (res = false →
      b'.sync_state.python_version = b.sync_state.python_version
      ∧ b'.sync_state.last_sync = b.sync_state.last_sync
      ∧ b'.state_file = b.state_file
      ∧ (∀ d, Eff.fileWrite d ∉ effs)
      ∧ (∀ hid ok, Eff.handlerRun hid "python_data_synced" ok ∉ effs)
      ∧ (∀ m ∈ b'.message_queue, m ∈ b.message_queue
          ∨ m.type = "annotations_imported"))
    ∧ ((syncPhase (.dict kvs) "bookmarks" (bookmarksLoop env.client)).2 = false
        → res = false)
    ∧ ((syncPhase (.dict kvs) "collections" (collectionsLoop env.client)).2
          = false
        → res = false) := by
  unfold sync_python_data_to_react at H
  by_cases h1 : (syncPhase (.dict kvs) "bookmarks" (bookmarksLoop env.client)).2 = true
  · rw [if_pos h1] at H
    rcases h2 : pyIn "annotations" (.dict kvs) with e | condA
    · simp [pyIn] at h2
    · simp only [h2] at H
      have hcondA : condA = (kvs.any fun p => p.1 == "annotations") := by
        have : pyIn "annotations" (.dict kvs)
            = .ok (kvs.any fun p => p.1 == "annotations") := rfl
        rw [this] at h2
        simpa using h2.symm
      cases condA with
      | false =>
        rw [if_neg (by simp)] at H
        refine ⟨?_, fun hf => absurd h1 (by simp [hf]), ?_⟩
        · intro hres
          rw [hres] at H
          obtain ⟨hb', heffs⟩ := syncFinish_false_dict env b kvs _ b' effs H
          subst hb'
          have hkinds : ∀ f ∈ effs, ∃ a as, f = Eff.remoteCall a as := by
            intro f hf
            rw [heffs] at hf
            rcases List.mem_append.mp hf with hf1 | hf2
            · exact syncPhase_effs_remote _ _ _
                (bookmarksLoop_effs_remote env.client) f hf1
            · exact syncPhase_effs_remote _ _ _
                (collectionsLoop_effs_remote env.client) f hf2
          refine ⟨rfl, rfl, rfl, ?_, ?_, fun m hm => Or.inl hm⟩
          · intro d hd
            rcases hkinds _ hd with ⟨a, as, he⟩
            simp at he
          · intro hid ok hd
            rcases hkinds _ hd with ⟨a, as, he⟩
            simp at he
        · intro hclf
          have hfin := syncFinish_false_of_clFalse env b (.dict kvs)
              (syncPhase (.dict kvs) "bookmarks" (bookmarksLoop env.client)).1
              hclf
          rw [H] at hfin
          exact hfin
      | true =>
        rw [if_pos rfl] at H
        have hany : (kvs.any fun p => p.1 == "annotations") = true := hcondA.symm
        obtain ⟨av, hav⟩ := pyGetItemS_of_any kvs "annotations" hany
        simp only [hav] at H
        refine ⟨?_, fun hf => absurd h1 (by simp [hf]), ?_⟩
        · intro hres
          rw [hres] at H
          obtain ⟨hb', heffs⟩ := syncFinish_false_dict env _ kvs _ b' effs H
          have hip := import_preserves env b av
          have hkinds : ∀ f ∈ effs,
              (∃ a as, f = Eff.remoteCall a as)
              ∨ ∃ hid ok, f = Eff.handlerRun hid "annotations_imported" ok := by
            intro f hf
            rw [heffs] at hf
            rcases List.mem_append.mp hf with hf1 | hf2
            · rcases List.mem_append.mp hf1 with hf3 | hf4
              · exact Or.inl (syncPhase_effs_remote _ _ _
                  (bookmarksLoop_effs_remote env.client) f hf3)
              · exact import_effs_kinds env b av f hf4
            · exact Or.inl (syncPhase_effs_remote _ _ _
                (collectionsLoop_effs_remote env.client) f hf2)
          refine ⟨?_, ?_, ?_, ?_, ?_, ?_⟩
          · rw [hb', hip.1]
          · rw [hb', hip.1]
          · rw [hb', hip.2.1]
          · intro d hd
            rcases hkinds _ hd with ⟨a, as, he⟩ | ⟨hid, ok, he⟩ <;> simp at he
          · intro hid ok hd
            rcases hkinds _ hd with ⟨a, as, he⟩ | ⟨hid2, ok2, he⟩ <;> simp at he
          · intro m hm
            rw [hb'] at hm
            exact hip.2.2.2 m hm
        · intro hclf
          have hfin := syncFinish_false_of_clFalse env
              (import_python_annotations env b av).2.1 (.dict kvs)
              ((syncPhase (.dict kvs) "bookmarks" (bookmarksLoop env.client)).1
                ++ (import_python_annotations env b av).2.2)
              hclf
          rw [H] at hfin
          exact hfin
  · rw [if_neg h1] at H
    simp only [Prod.mk.injEq] at H
    obtain ⟨hres, hb, heffs⟩ := H
    refine ⟨?_, fun _ => hres.symm, fun _ => hres.symm⟩
    intro _
    have hkinds : ∀ f ∈ effs, ∃ a as, f = Eff.remoteCall a as := by
      intro f hf
      rw [← heffs] at hf
      exact syncPhase_effs_remote _ _ _
        (bookmarksLoop_effs_remote env.client) f hf
    refine ⟨by rw [← hb], by rw [← hb], by rw [← hb], ?_, ?_,
      fun m hm => Or.inl (by rw [hb]; exact hm)⟩
    · intro d hd
      rcases hkinds _ hd with ⟨a, as, he⟩
      simp at he
    · intro hid ok hd
      rcases hkinds _ hd with ⟨a, as, he⟩
      simp at he

/-- Witness for `c10_amended`: a failing bookmark create yields `False`
and writes nothing to the state file. -/
theorem c10_amended_witness :
    Eff.fileWrite PyVal.none
      ∉ (sync_python_data_to_react envFail b0
          (.dict [("bookmarks", .list [item1])])).2.2 :=
  ((c10_amended envFail b0 [("bookmarks", .list [item1])]
      (sync_python_data_to_react envFail b0
        (.dict [("bookmarks", .list [item1])])).1
      (sync_python_data_to_react envFail b0
        (.dict [("bookmarks", .list [item1])])).2.1
      (sync_python_data_to_react envFail b0
        (.dict [("bookmarks", .list [item1])])).2.2
      rfl).1 rfl).2.2.2.1 PyVal.none

end Mystical
